import Mathlib

/-!
Scene-object model of `Framework/Common/SceneObject.hpp`

A shallow embedding of the scene-object header: the four-character type-tag
codec, the debug dump, `BaseSceneObject` with its constructors and move
operations, the leaf containers, `ParameterMap`, and the composite entities.

Conventions of the embedding

* `int32_t` values are carried by `Int`; arithmetic results are brought back
  into range by `wrap32` (two's complement).
* A `const char*` argument is the list of the `char` values it points at; the
  end of the list stands for the terminating NUL.
* `std::ostream` is the list of characters written so far, one `Char` per
  byte, with default formatting state.
* `std::vector<T>` is `List T`; `push_back` appends at the end.
* A parameter that has a default argument is an `Option`: `none` is a call
  that omits the argument.
* A member that a constructor leaves uninitialised is an `Option` holding
  `none`.
* Moving consumes the source: a move operation is a function of the source
  object and returns the destination only.
-/

namespace My

/-! ## Machine integers -/

/-- The `int32_t` value that an unbounded integer denotes (two's complement). -/
def wrap32 (n : Int) : Int := (n + 2147483648) % 4294967296 - 2147483648

/-! ## Type-tag codec (lines 11-19) -/

namespace details

/-- Source: `constexpr int32_t i32(const char* s, int32_t v)`:
`return *s ? i32(s+1, v * 256 + *s) : v;` -/
def i32 : List Int → Int → Int
  | [], v => v
  | c :: s, v => if c ≠ 0 then i32 s (wrap32 (v * 256 + c)) else v

end details

/-- The `char` values of a string of ASCII characters, as a `const char*`
argument. -/
def cstr (s : List Char) : List Int := s.map (fun c => Int.ofNat c.toNat)

/-- Source: `constexpr int32_t operator "" _i32(const char* s, size_t)`:
`return details::i32(s, 0);` -/
def _i32 (s : List Char) : Int := details.i32 (cstr s) 0

/-- The left fold `v = v*256 + c` of the specification, over unbounded
integers and started at `v`. -/
def foldTag (bytes : List Int) (v : Int) : Int :=
  bytes.foldl (fun acc c => acc * 256 + c) v

/-- A character of a type-tag code: ASCII and not NUL (byte in 1..127). -/
def isTagChar (c : Char) : Prop := 1 ≤ c.toNat ∧ c.toNat ≤ 127

instance (c : Char) : Decidable (isTagChar c) := by
  unfold isTagChar; infer_instance

/-! ## Byte order and the dump of a type tag (lines 34-45) -/

/-- The output stream: the characters written so far. -/
abbrev ostream := List Char

/-- The four bytes of an `int32_t`, most significant first. -/
def netBytes (n : Int) : List Nat :=
  let u := (n % 4294967296).toNat
  [u / 16777216 % 256, u / 65536 % 256, u / 256 % 256, u % 256]

/-- The bytes of an `int32_t` object in memory, lowest address first, on a
host that is little-endian (`le = true`) or big-endian (`le = false`). -/
def memBytes (le : Bool) (n : Int) : List Nat :=
  if le then (netBytes n).reverse else netBytes n

/-- The `int32_t` whose object representation is the given four bytes, lowest
address first. -/
def ofMemBytes (le : Bool) (bs : List Nat) : Int :=
  wrap32 ((if le then bs.reverse else bs).foldl (fun v b => v * 256 + Int.ofNat (b % 256)) 0)

/-- Modelled from the spec: `endian_net_unsigned_int<int32_t>` is declared in
`portable.hpp`, which is not part of the sources at hand. The specification
calls it the byte-order utility that converts the tag to network byte order:
the result is the `int32_t` whose bytes in memory, lowest address first, are
the bytes of the argument from most significant to least significant. -/
def endian_net_unsigned_int (le : Bool) (n : Int) : Int :=
  ofMemBytes le (netBytes n)

/-- The loop `for (size_t i = 0; i < sizeof(int32_t); i++) out << *c++;`
over the bytes `c` points at, `k` iterations remaining. -/
def putChars (c : List Nat) : Nat → Nat → ostream → ostream
  | 0, _, out => out
  | k + 1, i, out => putChars c k (i + 1) (out ++ [Char.ofNat (c.getD i 0)])

/-- Source: `std::ostream& operator<<(std::ostream& out, SceneObjectType type)`. -/
def putSceneObjectType (le : Bool) (out : ostream) (type : Int) : ostream :=
  let n := type
  let n := endian_net_unsigned_int le n
  let c := memBytes le n
  putChars c 4 0 out

/-! ## SceneObjectType (lines 21-32)

`ENUM(SceneObjectType)` is an enumeration over `int32_t` whose members are
given by `_i32` literals; two members may carry the same value, so the type is
the underlying integer and the members are constants of it. -/

/-- The underlying `int32_t` of `SceneObjectType`. -/
abbrev SceneObjectType := Int

namespace SceneObjectType

def kSceneObjectTypeMesh : SceneObjectType := _i32 "MESH".toList
def kSceneObjectTypeMaterial : SceneObjectType := _i32 "MATL".toList
def kSceneObjectTypeTexture : SceneObjectType := _i32 "TXTU".toList
def kSceneObjectTypeLight : SceneObjectType := _i32 "LGHT".toList
def kSceneObjectTypeCamera : SceneObjectType := _i32 "CAMR".toList
def kSceneObjectTypeAnimator : SceneObjectType := _i32 "ANIM".toList
def kSceneObjectTypeClip : SceneObjectType := _i32 "CLIP".toList
def kSceneObjectTypeVertexArray : SceneObjectType := _i32 "VARR".toList
def kSceneObjectTypeIndexArray : SceneObjectType := _i32 "VARR".toList
def kSceneObjectTypeGeometry : SceneObjectType := _i32 "GEOM".toList

end SceneObjectType

/-! ## BaseSceneObject (lines 48-81)

The identifier type `Guid` and the identity service `newGuid` come from
`Guid.hpp`, which is not part of the sources at hand. `G` is the type of
identifiers. The service is process-wide state: `σ` is the type of its states
and `newGuid : σ → G × σ` hands out an identifier and moves to the next
state. Constructors are run against that state and return it. -/

/-- Source: `class BaseSceneObject` with its members `m_Guid` and `m_Type`. -/
structure BaseSceneObject (G : Type) where
  m_Guid : G
  m_Type : SceneObjectType
deriving DecidableEq, Repr

namespace BaseSceneObject

variable {σ G : Type}

/-- Source: `BaseSceneObject(SceneObjectType type) : m_Type(type) { m_Guid = newGuid(); }` -/
def ctor (newGuid : σ → G × σ) (type : SceneObjectType) (st : σ) : BaseSceneObject G × σ :=
  let r := newGuid st
  ({ m_Guid := r.1, m_Type := type }, r.2)

/-- Source: `BaseSceneObject(Guid& guid, SceneObjectType type) : m_Guid(guid), m_Type(type) {}` -/
def ctorGuid (guid : G) (type : SceneObjectType) (st : σ) : BaseSceneObject G × σ :=
  ({ m_Guid := guid, m_Type := type }, st)

/-- Source: `BaseSceneObject(Guid&& guid, SceneObjectType type) : m_Guid(std::move(guid)), m_Type(type) {}` -/
def ctorGuidMove (guid : G) (type : SceneObjectType) (st : σ) : BaseSceneObject G × σ :=
  ({ m_Guid := guid, m_Type := type }, st)

/-- Source: `BaseSceneObject(BaseSceneObject&& obj) : m_Guid(std::move(obj.m_Guid)), m_Type(obj.m_Type) {}` -/
def moveCtor (obj : BaseSceneObject G) : BaseSceneObject G :=
  { m_Guid := obj.m_Guid, m_Type := obj.m_Type }

/-- Source: `BaseSceneObject& operator=(BaseSceneObject&& obj)`:
`this->m_Guid = std::move(obj.m_Guid); this->m_Type = obj.m_Type; return *this;` -/
def moveAssign (self obj : BaseSceneObject G) : BaseSceneObject G :=
  let self := { self with m_Guid := obj.m_Guid }
  let self := { self with m_Type := obj.m_Type }
  self

/-- Source: `const Guid& GetGuid() const { return m_Guid; }` -/
def GetGuid (self : BaseSceneObject G) : G := self.m_Guid

/-- Source: `const SceneObjectType GetType() const { return m_Type; }` -/
def GetType (self : BaseSceneObject G) : SceneObjectType := self.m_Type

end BaseSceneObject

/-- Source `out << std::endl`: a newline (the flush leaves the characters as they are). -/
def endl (out : ostream) : ostream := out ++ [Char.ofNat 10]

/-- Modelled from the spec: the stream insertion of a `Guid` is declared in
`Guid.hpp`, which is not part of the sources at hand. The specification gives
an identifier a stable textual representation for debug output, here
`guidText`; the insertion appends it. -/
def putGuid {G : Type} (guidText : G → List Char) (out : ostream) (guid : G) : ostream :=
  out ++ guidText guid

/-- A line of text: its characters and the newline that ends it. -/
def line (text : List Char) : List Char := text ++ [Char.ofNat 10]

/-- Source: `std::ostream& operator<<(std::ostream& out, const BaseSceneObject& obj)`,
on a host of either byte order `le`. -/
def putBaseSceneObject {G : Type} (le : Bool) (guidText : G → List Char)
    (out : ostream) (obj : BaseSceneObject G) : ostream :=
  let out := endl (out ++ "SceneObject".toList)
  let out := endl (out ++ "-----------".toList)
  let out := endl (putGuid guidText (out ++ "GUID: ".toList) obj.m_Guid)
  let out := endl (putSceneObjectType le (out ++ "Type: ".toList) obj.m_Type)
  out

/-! ## Leaf containers (lines 83-127)

`P` is the type of the untyped buffer handle `void*`. -/

/-- The underlying `int32_t` of `VertexDataType`. -/
abbrev VertexDataType := Int

namespace VertexDataType

def kVertexDataTypeFloat1 : VertexDataType := _i32 "FLT1".toList
def kVertexDataTypeFloat2 : VertexDataType := _i32 "FLT2".toList
def kVertexDataTypeFloat3 : VertexDataType := _i32 "FLT3".toList
def kVertexDataTypeFloat4 : VertexDataType := _i32 "FLT4".toList
def kVertexDataTypeDouble1 : VertexDataType := _i32 "DUB1".toList
def kVertexDataTypeDouble2 : VertexDataType := _i32 "DUB2".toList
def kVertexDataTypeDouble3 : VertexDataType := _i32 "DUB3".toList
def kVertexDataTypeDouble4 : VertexDataType := _i32 "DUB3".toList

end VertexDataType

/-- Source: `class SceneObjectVertexArray : public BaseSceneObject`. -/
structure SceneObjectVertexArray (G P : Type) extends BaseSceneObject G where
  m_Attribute : String
  m_MorphTargetIndex : Nat
  m_DataType : VertexDataType
  m_pDataFloat : P
  m_szData : Nat
deriving DecidableEq, Repr

namespace SceneObjectVertexArray

variable {σ G P : Type}

/-- Source: `SceneObjectVertexArray(const char* attr, void* data, size_t data_size,
VertexDataType data_type, uint32_t morph_index = 0)`
with the initialisers `BaseSceneObject(SceneObjectType::kSceneObjectTypeVertexArray),
m_Attribute(attr), m_MorphTargetIndex(morph_index), m_DataType(data_type),
m_pDataFloat(data), m_szData(data_size)`. -/
def ctor (newGuid : σ → G × σ) (attr : String) (data : P) (data_size : Nat)
    (data_type : VertexDataType) (morph_index : Option Nat) (st : σ) :
    SceneObjectVertexArray G P × σ :=
  let morph_index := morph_index.getD 0
  let b := BaseSceneObject.ctor newGuid SceneObjectType.kSceneObjectTypeVertexArray st
  ({ toBaseSceneObject := b.1
     m_Attribute := attr
     m_MorphTargetIndex := morph_index
     m_DataType := data_type
     m_pDataFloat := data
     m_szData := data_size }, b.2)

/-- The implicit move constructor: the base is moved, the members are moved
or copied one by one. -/
def moveCtor (obj : SceneObjectVertexArray G P) : SceneObjectVertexArray G P :=
  { toBaseSceneObject := BaseSceneObject.moveCtor obj.toBaseSceneObject
    m_Attribute := obj.m_Attribute
    m_MorphTargetIndex := obj.m_MorphTargetIndex
    m_DataType := obj.m_DataType
    m_pDataFloat := obj.m_pDataFloat
    m_szData := obj.m_szData }

end SceneObjectVertexArray

/-- The underlying `int32_t` of `IndexDataType`. -/
abbrev IndexDataType := Int

namespace IndexDataType

def kIndexDataTypeInt16 : IndexDataType := _i32 "_I16".toList
def kIndexDataTypeInt32 : IndexDataType := _i32 "_I32".toList

end IndexDataType

/-- Source: `class SceneObjectIndexArray : public BaseSceneObject`; the
constructor initialises neither `m_pData` nor `m_szData`. -/
structure SceneObjectIndexArray (G P : Type) extends BaseSceneObject G where
  m_MaterialIndex : Nat
  m_RestartIndex : Nat
  m_DataType : IndexDataType
  m_pData : Option P
  m_szData : Option Nat
deriving DecidableEq, Repr

namespace SceneObjectIndexArray

variable {σ G P : Type}

/-- Source: `SceneObjectIndexArray(uint32_t material_index,
IndexDataType data_type = IndexDataType::kIndexDataTypeInt16, uint32_t restart_index = 0)`
with the initialisers `BaseSceneObject(SceneObjectType::kSceneObjectTypeIndexArray),
m_MaterialIndex(material_index), m_RestartIndex(restart_index), m_DataType(data_type)`. -/
def ctor (newGuid : σ → G × σ) (material_index : Nat) (data_type : Option IndexDataType)
    (restart_index : Option Nat) (st : σ) : SceneObjectIndexArray G P × σ :=
  let data_type := data_type.getD IndexDataType.kIndexDataTypeInt16
  let restart_index := restart_index.getD 0
  let b := BaseSceneObject.ctor newGuid SceneObjectType.kSceneObjectTypeIndexArray st
  ({ toBaseSceneObject := b.1
     m_MaterialIndex := material_index
     m_RestartIndex := restart_index
     m_DataType := data_type
     m_pData := none
     m_szData := none }, b.2)

/-- The implicit move constructor. -/
def moveCtor (obj : SceneObjectIndexArray G P) : SceneObjectIndexArray G P :=
  { toBaseSceneObject := BaseSceneObject.moveCtor obj.toBaseSceneObject
    m_MaterialIndex := obj.m_MaterialIndex
    m_RestartIndex := obj.m_RestartIndex
    m_DataType := obj.m_DataType
    m_pData := obj.m_pData
    m_szData := obj.m_szData }

end SceneObjectIndexArray

/-! ## SceneObjectMesh (lines 129-143) -/

/-- Source: `class SceneObjectMesh : public BaseSceneObject`. -/
structure SceneObjectMesh (G P : Type) extends BaseSceneObject G where
  m_IndexArray : List (SceneObjectIndexArray G P)
  m_VertexArray : List (SceneObjectVertexArray G P)
  m_bVisible : Bool
  m_bShadow : Bool
  m_bMotionBlur : Bool
deriving DecidableEq, Repr

namespace SceneObjectMesh

variable {σ G P : Type}

/-- Source: `SceneObjectMesh(bool visible = true, bool shadow = true, bool motion_blur = true)`
with the initialisers `BaseSceneObject(SceneObjectType::kSceneObjectTypeMesh),
m_bVisible(visible), m_bShadow(shadow), m_bMotionBlur(motion_blur)`; both
vectors start empty. -/
def ctor (newGuid : σ → G × σ) (visible shadow motion_blur : Option Bool) (st : σ) :
    SceneObjectMesh G P × σ :=
  let visible := visible.getD true
  let shadow := shadow.getD true
  let motion_blur := motion_blur.getD true
  let b := BaseSceneObject.ctor newGuid SceneObjectType.kSceneObjectTypeMesh st
  ({ toBaseSceneObject := b.1
     m_IndexArray := []
     m_VertexArray := []
     m_bVisible := visible
     m_bShadow := shadow
     m_bMotionBlur := motion_blur }, b.2)

/-- Source: `void AddIndexArray(SceneObjectIndexArray&& array)`:
`m_IndexArray.push_back(std::move(array));` -/
def AddIndexArray (self : SceneObjectMesh G P) (array : SceneObjectIndexArray G P) :
    SceneObjectMesh G P :=
  { self with m_IndexArray := self.m_IndexArray ++ [SceneObjectIndexArray.moveCtor array] }

/-- Source: `void AddVertxArray(SceneObjectVertexArray&& array)`:
`m_VertexArray.push_back(std::move(array));` -/
def AddVertxArray (self : SceneObjectMesh G P) (array : SceneObjectVertexArray G P) :
    SceneObjectMesh G P :=
  { self with m_VertexArray := self.m_VertexArray ++ [SceneObjectVertexArray.moveCtor array] }

/-- The implicit move constructor; moving a vector hands over its elements. -/
def moveCtor (obj : SceneObjectMesh G P) : SceneObjectMesh G P :=
  { toBaseSceneObject := BaseSceneObject.moveCtor obj.toBaseSceneObject
    m_IndexArray := obj.m_IndexArray
    m_VertexArray := obj.m_VertexArray
    m_bVisible := obj.m_bVisible
    m_bShadow := obj.m_bShadow
    m_bMotionBlur := obj.m_bMotionBlur }

end SceneObjectMesh

/-! ## ParameterMap (lines 145-160)

`I` is the type of the image handle `Image*`; `F` is the type of `float`
values, which this header stores and hands on without computing with them.
The literals `0.0f` and `1.0f` are the `0` and `1` of `F`. -/

/-- The anonymous union `union { T Value; Image* Map; }` with its active arm. -/
inductive ParameterUnion (T I : Type) where
  | Value (value : T)
  | Map (map : I)
deriving DecidableEq, Repr

/-- Source: `template <typename T> struct ParameterMap`. -/
structure ParameterMap (T I : Type) where
  bUsingSingleValue : Bool
  u : ParameterUnion T I
deriving DecidableEq, Repr

namespace ParameterMap

variable {T I : Type}

/-- Source: `ParameterMap(T value) : bUsingSingleValue(true), Value(value) {}` -/
def ctor (value : T) : ParameterMap T I :=
  { bUsingSingleValue := true, u := ParameterUnion.Value value }

/-- The implicit copy constructor: the flag and the union are copied. -/
def copyCtor (other : ParameterMap T I) : ParameterMap T I :=
  { bUsingSingleValue := other.bUsingSingleValue, u := other.u }

/-- The `Value` arm of the union, when it is the active one. -/
def Value (self : ParameterMap T I) : Option T :=
  match self.u with
  | ParameterUnion.Value v => some v
  | ParameterUnion.Map _ => none

/-- The instances that the constructors of `ParameterMap` produce: the
declared constructor from a value, and the implicit copy of an instance. -/
inductive Constructed : ParameterMap T I → Prop where
  | ofValue (value : T) : Constructed (ctor value)
  | ofCopy (other : ParameterMap T I) : Constructed other → Constructed (copyCtor other)

end ParameterMap

/-- Modelled from the spec: `Vector3f` is declared in `geommath.hpp`, which is
not part of the sources at hand; a vector of three `float` components, built
from its components as in `Vector3f(0.0f, 0.0f, 1.0f)`. -/
structure Vector3f (F : Type) where
  x : F
  y : F
  z : F
deriving DecidableEq, Repr

/-- Modelled from the spec: `Vector4f` is declared in `geommath.hpp`, which is
not part of the sources at hand; a vector of four `float` components. -/
structure Vector4f (F : Type) where
  x : F
  y : F
  z : F
  w : F
deriving DecidableEq, Repr

/-- Modelled from the spec: the one-argument constructor used in
`Vector4f(1.0f)` belongs to `geommath.hpp`, which is not part of the sources
at hand. The specification names the default base colour white and opaque, so
the constructor gives every component the argument. -/
def Vector4f.splat {F : Type} (v : F) : Vector4f F := { x := v, y := v, z := v, w := v }

/-- Source: `typedef ParameterMap<Vector4f> Color;` -/
abbrev Color (I F : Type) := ParameterMap (Vector4f F) I

/-- Source: `typedef ParameterMap<Vector3f> Normal;` -/
abbrev Normal (I F : Type) := ParameterMap (Vector3f F) I

/-- Source: `typedef ParameterMap<float> Parameter;` -/
abbrev Parameter (I F : Type) := ParameterMap F I

/-! ## SceneObjectMaterial (lines 162-174) -/

/-- Source: `class SceneObjectMaterial : public BaseSceneObject`. -/
structure SceneObjectMaterial (G I F : Type) extends BaseSceneObject G where
  m_BaseColor : Color I F
  m_Metallic : Parameter I F
  m_Roughness : Parameter I F
  m_Normal : Normal I F
  m_Specular : Parameter I F
  m_AmbientOcclusion : Parameter I F
deriving DecidableEq, Repr

namespace SceneObjectMaterial

variable {σ G I F : Type} [Zero F] [One F]

/-- Source: `SceneObjectMaterial(Color base_color = Vector4f(1.0f), Parameter metallic = 0.0f,
Parameter roughness = 0.0f, Normal normal = Vector3f(0.0f, 0.0f, 1.0f),
Parameter specular = 0.0f, Parameter ao = 1.0f)`
with the initialisers `BaseSceneObject(SceneObjectType::kSceneObjectTypeMaterial),
m_BaseColor(base_color), m_Metallic(metallic), m_Roughness(roughness),
m_Normal(normal), m_Specular(specular), m_AmbientOcclusion(ao)`. A default
argument is converted to its parameter type by `ParameterMap(T value)`; each
member is copy-constructed from its parameter. -/
def ctor (newGuid : σ → G × σ) (base_color : Option (Color I F))
    (metallic roughness : Option (Parameter I F)) (normal : Option (Normal I F))
    (specular ao : Option (Parameter I F)) (st : σ) : SceneObjectMaterial G I F × σ :=
  let base_color := base_color.getD (ParameterMap.ctor (Vector4f.splat 1))
  let metallic := metallic.getD (ParameterMap.ctor 0)
  let roughness := roughness.getD (ParameterMap.ctor 0)
  let normal := normal.getD (ParameterMap.ctor { x := 0, y := 0, z := 1 })
  let specular := specular.getD (ParameterMap.ctor 0)
  let ao := ao.getD (ParameterMap.ctor 1)
  let b := BaseSceneObject.ctor newGuid SceneObjectType.kSceneObjectTypeMaterial st
  ({ toBaseSceneObject := b.1
     m_BaseColor := ParameterMap.copyCtor base_color
     m_Metallic := ParameterMap.copyCtor metallic
     m_Roughness := ParameterMap.copyCtor roughness
     m_Normal := ParameterMap.copyCtor normal
     m_Specular := ParameterMap.copyCtor specular
     m_AmbientOcclusion := ParameterMap.copyCtor ao }, b.2)

end SceneObjectMaterial

/-! ## SceneObjectGeometry (lines 176-184) -/

/-- Source: `class SceneObjectGeometry : public BaseSceneObject`. -/
structure SceneObjectGeometry (G P : Type) extends BaseSceneObject G where
  m_Mesh : List (SceneObjectMesh G P)
deriving DecidableEq, Repr

namespace SceneObjectGeometry

variable {σ G P : Type}

/-- Source: `void AddMesh(SceneObjectMesh&& mesh)`: `m_Mesh.push_back(std::move(mesh));` -/
def AddMesh (self : SceneObjectGeometry G P) (mesh : SceneObjectMesh G P) :
    SceneObjectGeometry G P :=
  { self with m_Mesh := self.m_Mesh ++ [SceneObjectMesh.moveCtor mesh] }

/-- Source: `SceneObjectGeometry() : BaseSceneObject(SceneObjectType::kSceneObjectTypeGeometry) {}`;
the vector starts empty. -/
def ctor (newGuid : σ → G × σ) (st : σ) : SceneObjectGeometry G P × σ :=
  let b := BaseSceneObject.ctor newGuid SceneObjectType.kSceneObjectTypeGeometry st
  ({ toBaseSceneObject := b.1, m_Mesh := [] }, b.2)

end SceneObjectGeometry

/-! ## Lights and camera (lines 186-226) -/

/-- Source: `class SceneObjectLight : public BaseSceneObject`; the attenuation
`typedef float (*AttenFunc)(float, float)` is a function of two `float`s. -/
structure SceneObjectLight (G I F : Type) extends BaseSceneObject G where
  m_LightColor : Color I F
  m_Intensity : Option F
  m_LightAttenuation : Option (F → F → F)
  m_fNearClipDistance : Option F
  m_fFarClipDistance : Option F
  m_bCastShadows : Option Bool

namespace SceneObjectLight

variable {σ G I F : Type} [Zero F]

/-- Source: `SceneObjectLight() : BaseSceneObject(SceneObjectType::kSceneObjectTypeLight),
m_LightColor(0) {}`; the `0` reaches `ParameterMap(T value)` as a vector built
from one scalar. -/
def ctor (newGuid : σ → G × σ) (st : σ) : SceneObjectLight G I F × σ :=
  let b := BaseSceneObject.ctor newGuid SceneObjectType.kSceneObjectTypeLight st
  ({ toBaseSceneObject := b.1
     m_LightColor := ParameterMap.ctor (Vector4f.splat 0)
     m_Intensity := none
     m_LightAttenuation := none
     m_fNearClipDistance := none
     m_fFarClipDistance := none
     m_bCastShadows := none }, b.2)

end SceneObjectLight

/-- Source: `class SceneObjectOmniLight : public SceneObjectLight`. -/
structure SceneObjectOmniLight (G I F : Type) extends SceneObjectLight G I F

/-- The implicit default constructor of `SceneObjectOmniLight`: it runs
`SceneObjectLight()`. -/
def SceneObjectOmniLight.ctor {σ G I F : Type} [Zero F] (newGuid : σ → G × σ) (st : σ) :
    SceneObjectOmniLight G I F × σ :=
  let l := SceneObjectLight.ctor newGuid st
  ({ toSceneObjectLight := l.1 }, l.2)

/-- Source: `class SceneObjectSpotLight : public SceneObjectLight`. -/
structure SceneObjectSpotLight (G I F : Type) extends SceneObjectLight G I F where
  m_fConeAngle : Option F
  m_fPenumbraAngle : Option F

/-- The implicit default constructor of `SceneObjectSpotLight`: it runs
`SceneObjectLight()` and initialises neither angle. -/
def SceneObjectSpotLight.ctor {σ G I F : Type} [Zero F] (newGuid : σ → G × σ) (st : σ) :
    SceneObjectSpotLight G I F × σ :=
  let l := SceneObjectLight.ctor newGuid st
  ({ toSceneObjectLight := l.1, m_fConeAngle := none, m_fPenumbraAngle := none }, l.2)

/-- Source: `class SceneObjectCamera : public BaseSceneObject`. -/
structure SceneObjectCamera (G F : Type) extends BaseSceneObject G where
  m_fFov : Option F
  m_fNearClipDistance : Option F
  m_fFarClipDistance : Option F

/-- Source: `SceneObjectCamera() : BaseSceneObject(SceneObjectType::kSceneObjectTypeCamera) {}` -/
def SceneObjectCamera.ctor {σ G F : Type} (newGuid : σ → G × σ) (st : σ) :
    SceneObjectCamera G F × σ :=
  let b := BaseSceneObject.ctor newGuid SceneObjectType.kSceneObjectTypeCamera st
  ({ toBaseSceneObject := b.1
     m_fFov := none
     m_fNearClipDistance := none
     m_fFarClipDistance := none }, b.2)

/-! ## Runs of constructions against the identity service -/

/-- Any object of one of the concrete scene-object classes. -/
inductive SceneObject (G P I F : Type) where
  | VertexArray (o : SceneObjectVertexArray G P)
  | IndexArray (o : SceneObjectIndexArray G P)
  | Mesh (o : SceneObjectMesh G P)
  | Material (o : SceneObjectMaterial G I F)
  | Geometry (o : SceneObjectGeometry G P)
  | OmniLight (o : SceneObjectOmniLight G I F)
  | SpotLight (o : SceneObjectSpotLight G I F)
  | Camera (o : SceneObjectCamera G F)

/-- The `BaseSceneObject` subobject of a scene object. -/
def SceneObject.toBase {G P I F : Type} : SceneObject G P I F → BaseSceneObject G
  | VertexArray o => o.toBaseSceneObject
  | IndexArray o => o.toBaseSceneObject
  | Mesh o => o.toBaseSceneObject
  | Material o => o.toBaseSceneObject
  | Geometry o => o.toBaseSceneObject
  | OmniLight o => o.toBaseSceneObject
  | SpotLight o => o.toBaseSceneObject
  | Camera o => o.toBaseSceneObject

/-- A call of a public constructor of a concrete class, with its arguments.
Every one of them reaches `BaseSceneObject(SceneObjectType)`. -/
inductive Construction (P I F : Type) where
  | VertexArray (attr : String) (data : P) (data_size : Nat) (data_type : VertexDataType)
      (morph_index : Option Nat)
  | IndexArray (material_index : Nat) (data_type : Option IndexDataType)
      (restart_index : Option Nat)
  | Mesh (visible shadow motion_blur : Option Bool)
  | Material (base_color : Option (Color I F)) (metallic roughness : Option (Parameter I F))
      (normal : Option (Normal I F)) (specular ao : Option (Parameter I F))
  | Geometry
  | OmniLight
  | SpotLight
  | Camera

/-- Running one constructor call in state `st` of the identity service. -/
def Construction.run {σ G P I F : Type} [Zero F] [One F] (newGuid : σ → G × σ) :
    Construction P I F → σ → SceneObject G P I F × σ
  | VertexArray attr data data_size data_type morph_index, st =>
      let r := SceneObjectVertexArray.ctor newGuid attr data data_size data_type morph_index st
      (SceneObject.VertexArray r.1, r.2)
  | IndexArray material_index data_type restart_index, st =>
      let r := SceneObjectIndexArray.ctor newGuid material_index data_type restart_index st
      (SceneObject.IndexArray r.1, r.2)
  | Mesh visible shadow motion_blur, st =>
      let r := SceneObjectMesh.ctor newGuid visible shadow motion_blur st
      (SceneObject.Mesh r.1, r.2)
  | Material base_color metallic roughness normal specular ao, st =>
      let r := SceneObjectMaterial.ctor newGuid base_color metallic roughness normal specular ao st
      (SceneObject.Material r.1, r.2)
  | Geometry, st =>
      let r := SceneObjectGeometry.ctor newGuid st
      (SceneObject.Geometry r.1, r.2)
  | OmniLight, st =>
      let r := SceneObjectOmniLight.ctor newGuid st
      (SceneObject.OmniLight r.1, r.2)
  | SpotLight, st =>
      let r := SceneObjectSpotLight.ctor newGuid st
      (SceneObject.SpotLight r.1, r.2)
  | Camera, st =>
      let r := SceneObjectCamera.ctor newGuid st
      (SceneObject.Camera r.1, r.2)

/-- Running constructor calls one after another, the first call first. -/
def constructAll {σ G P I F : Type} [Zero F] [One F] (newGuid : σ → G × σ) :
    List (Construction P I F) → σ → List (SceneObject G P I F) × σ
  | [], st => ([], st)
  | c :: cs, st =>
      let r := c.run newGuid st
      let rs := constructAll newGuid cs r.2
      (r.1 :: rs.1, rs.2)

/-- The identifiers that `n` successive calls of `newGuid` return, starting in
state `st`. -/
def issued {σ G : Type} (newGuid : σ → G × σ) : Nat → σ → List G
  | 0, _ => []
  | n + 1, st => (newGuid st).1 :: issued newGuid n (newGuid st).2

/-- Modelled from the spec: the identity service belongs to `Guid.hpp`, which
is not part of the sources at hand. The specification has it produce unique
identifiers on demand: started in state `st`, it never returns the same
identifier twice. -/
def NeverRepeats {σ G : Type} (newGuid : σ → G × σ) (st : σ) : Prop :=
  ∀ n, (issued newGuid n st).Nodup

/-- A counting identity service: the state is the next identifier. -/
def counterGuid (st : Nat) : Nat × Nat := (st, st + 1)

/-! ## Intermediate values of the codec -/

/-- The values `v * 256 + *s` that `details::i32` computes, one per character
and in order, each as the unbounded integer it is before it is stored in an
`int32_t`. -/
def details.i32_values : List Int → Int → List Int
  | [], _ => []
  | c :: s, v => if c ≠ 0 then (v * 256 + c) :: i32_values s (wrap32 (v * 256 + c)) else []

/-! ## Implicit move operations of the concrete classes

No concrete class declares a copy or move operation or a destructor, so each
has the implicit move constructor and move assignment: the base subobject is
moved by the operations of `BaseSceneObject`, then every member is moved or
copied. -/

/-- The implicit assignment of `ParameterMap`: the flag and the union are
assigned. -/
def ParameterMap.assign {T I : Type} (self other : ParameterMap T I) : ParameterMap T I :=
  { self with bUsingSingleValue := other.bUsingSingleValue, u := other.u }

/-- The implicit move assignment of `SceneObjectVertexArray`. -/
def SceneObjectVertexArray.moveAssign {G P : Type} (self obj : SceneObjectVertexArray G P) :
    SceneObjectVertexArray G P :=
  { toBaseSceneObject := BaseSceneObject.moveAssign self.toBaseSceneObject obj.toBaseSceneObject
    m_Attribute := obj.m_Attribute
    m_MorphTargetIndex := obj.m_MorphTargetIndex
    m_DataType := obj.m_DataType
    m_pDataFloat := obj.m_pDataFloat
    m_szData := obj.m_szData }

/-- The implicit move assignment of `SceneObjectIndexArray`. -/
def SceneObjectIndexArray.moveAssign {G P : Type} (self obj : SceneObjectIndexArray G P) :
    SceneObjectIndexArray G P :=
  { toBaseSceneObject := BaseSceneObject.moveAssign self.toBaseSceneObject obj.toBaseSceneObject
    m_MaterialIndex := obj.m_MaterialIndex
    m_RestartIndex := obj.m_RestartIndex
    m_DataType := obj.m_DataType
    m_pData := obj.m_pData
    m_szData := obj.m_szData }

/-- The implicit move assignment of `SceneObjectMesh`; a vector that is
move-assigned gives up its elements and takes those of the source. -/
def SceneObjectMesh.moveAssign {G P : Type} (self obj : SceneObjectMesh G P) :
    SceneObjectMesh G P :=
  { toBaseSceneObject := BaseSceneObject.moveAssign self.toBaseSceneObject obj.toBaseSceneObject
    m_IndexArray := obj.m_IndexArray
    m_VertexArray := obj.m_VertexArray
    m_bVisible := obj.m_bVisible
    m_bShadow := obj.m_bShadow
    m_bMotionBlur := obj.m_bMotionBlur }

/-- The implicit move constructor of `SceneObjectMaterial`. -/
def SceneObjectMaterial.moveCtor {G I F : Type} (obj : SceneObjectMaterial G I F) :
    SceneObjectMaterial G I F :=
  { toBaseSceneObject := BaseSceneObject.moveCtor obj.toBaseSceneObject
    m_BaseColor := ParameterMap.copyCtor obj.m_BaseColor
    m_Metallic := ParameterMap.copyCtor obj.m_Metallic
    m_Roughness := ParameterMap.copyCtor obj.m_Roughness
    m_Normal := ParameterMap.copyCtor obj.m_Normal
    m_Specular := ParameterMap.copyCtor obj.m_Specular
    m_AmbientOcclusion := ParameterMap.copyCtor obj.m_AmbientOcclusion }

/-- The implicit move assignment of `SceneObjectMaterial`. -/
def SceneObjectMaterial.moveAssign {G I F : Type} (self obj : SceneObjectMaterial G I F) :
    SceneObjectMaterial G I F :=
  { toBaseSceneObject := BaseSceneObject.moveAssign self.toBaseSceneObject obj.toBaseSceneObject
    m_BaseColor := self.m_BaseColor.assign obj.m_BaseColor
    m_Metallic := self.m_Metallic.assign obj.m_Metallic
    m_Roughness := self.m_Roughness.assign obj.m_Roughness
    m_Normal := self.m_Normal.assign obj.m_Normal
    m_Specular := self.m_Specular.assign obj.m_Specular
    m_AmbientOcclusion := self.m_AmbientOcclusion.assign obj.m_AmbientOcclusion }

/-- The implicit move constructor of `SceneObjectGeometry`. -/
def SceneObjectGeometry.moveCtor {G P : Type} (obj : SceneObjectGeometry G P) :
    SceneObjectGeometry G P :=
  { toBaseSceneObject := BaseSceneObject.moveCtor obj.toBaseSceneObject
    m_Mesh := obj.m_Mesh }

/-- The implicit move assignment of `SceneObjectGeometry`. -/
def SceneObjectGeometry.moveAssign {G P : Type} (self obj : SceneObjectGeometry G P) :
    SceneObjectGeometry G P :=
  { toBaseSceneObject := BaseSceneObject.moveAssign self.toBaseSceneObject obj.toBaseSceneObject
    m_Mesh := obj.m_Mesh }

/-- The implicit move constructor of `SceneObjectLight`. -/
def SceneObjectLight.moveCtor {G I F : Type} (obj : SceneObjectLight G I F) :
    SceneObjectLight G I F :=
  { toBaseSceneObject := BaseSceneObject.moveCtor obj.toBaseSceneObject
    m_LightColor := ParameterMap.copyCtor obj.m_LightColor
    m_Intensity := obj.m_Intensity
    m_LightAttenuation := obj.m_LightAttenuation
    m_fNearClipDistance := obj.m_fNearClipDistance
    m_fFarClipDistance := obj.m_fFarClipDistance
    m_bCastShadows := obj.m_bCastShadows }

/-- The implicit move assignment of `SceneObjectLight`. -/
def SceneObjectLight.moveAssign {G I F : Type} (self obj : SceneObjectLight G I F) :
    SceneObjectLight G I F :=
  { toBaseSceneObject := BaseSceneObject.moveAssign self.toBaseSceneObject obj.toBaseSceneObject
    m_LightColor := self.m_LightColor.assign obj.m_LightColor
    m_Intensity := obj.m_Intensity
    m_LightAttenuation := obj.m_LightAttenuation
    m_fNearClipDistance := obj.m_fNearClipDistance
    m_fFarClipDistance := obj.m_fFarClipDistance
    m_bCastShadows := obj.m_bCastShadows }

/-- The implicit move constructor of `SceneObjectOmniLight`. -/
def SceneObjectOmniLight.moveCtor {G I F : Type} (obj : SceneObjectOmniLight G I F) :
    SceneObjectOmniLight G I F :=
  { toSceneObjectLight := SceneObjectLight.moveCtor obj.toSceneObjectLight }

/-- The implicit move assignment of `SceneObjectOmniLight`. -/
def SceneObjectOmniLight.moveAssign {G I F : Type} (self obj : SceneObjectOmniLight G I F) :
    SceneObjectOmniLight G I F :=
  { toSceneObjectLight :=
      SceneObjectLight.moveAssign self.toSceneObjectLight obj.toSceneObjectLight }

/-- The implicit move constructor of `SceneObjectSpotLight`. -/
def SceneObjectSpotLight.moveCtor {G I F : Type} (obj : SceneObjectSpotLight G I F) :
    SceneObjectSpotLight G I F :=
  { toSceneObjectLight := SceneObjectLight.moveCtor obj.toSceneObjectLight
    m_fConeAngle := obj.m_fConeAngle
    m_fPenumbraAngle := obj.m_fPenumbraAngle }

/-- The implicit move assignment of `SceneObjectSpotLight`. -/
def SceneObjectSpotLight.moveAssign {G I F : Type} (self obj : SceneObjectSpotLight G I F) :
    SceneObjectSpotLight G I F :=
  { toSceneObjectLight :=
      SceneObjectLight.moveAssign self.toSceneObjectLight obj.toSceneObjectLight
    m_fConeAngle := obj.m_fConeAngle
    m_fPenumbraAngle := obj.m_fPenumbraAngle }

/-- The implicit move constructor of `SceneObjectCamera`. -/
def SceneObjectCamera.moveCtor {G F : Type} (obj : SceneObjectCamera G F) :
    SceneObjectCamera G F :=
  { toBaseSceneObject := BaseSceneObject.moveCtor obj.toBaseSceneObject
    m_fFov := obj.m_fFov
    m_fNearClipDistance := obj.m_fNearClipDistance
    m_fFarClipDistance := obj.m_fFarClipDistance }

/-- The implicit move assignment of `SceneObjectCamera`. -/
def SceneObjectCamera.moveAssign {G F : Type} (self obj : SceneObjectCamera G F) :
    SceneObjectCamera G F :=
  { toBaseSceneObject := BaseSceneObject.moveAssign self.toBaseSceneObject obj.toBaseSceneObject
    m_fFov := obj.m_fFov
    m_fNearClipDistance := obj.m_fNearClipDistance
    m_fFarClipDistance := obj.m_fFarClipDistance }

/-- Move construction from an object of any concrete class. -/
def SceneObject.moveCtor {G P I F : Type} : SceneObject G P I F → SceneObject G P I F
  | VertexArray o => VertexArray o.moveCtor
  | IndexArray o => IndexArray o.moveCtor
  | Mesh o => Mesh o.moveCtor
  | Material o => Material o.moveCtor
  | Geometry o => Geometry o.moveCtor
  | OmniLight o => OmniLight o.moveCtor
  | SpotLight o => SpotLight o.moveCtor
  | Camera o => Camera o.moveCtor

/-- Move assignment `self = std::move(obj)`; it exists only between two
objects of the same concrete class, otherwise the result is `none`. -/
def SceneObject.moveAssign {G P I F : Type} :
    SceneObject G P I F → SceneObject G P I F → Option (SceneObject G P I F)
  | VertexArray x, VertexArray y => some (VertexArray (x.moveAssign y))
  | IndexArray x, IndexArray y => some (IndexArray (x.moveAssign y))
  | Mesh x, Mesh y => some (Mesh (x.moveAssign y))
  | Material x, Material y => some (Material (x.moveAssign y))
  | Geometry x, Geometry y => some (Geometry (x.moveAssign y))
  | OmniLight x, OmniLight y => some (OmniLight (x.moveAssign y))
  | SpotLight x, SpotLight y => some (SpotLight (x.moveAssign y))
  | Camera x, Camera y => some (Camera (x.moveAssign y))
  | _, _ => none

/-- The kind that the constructors of the object's class hand to
`BaseSceneObject(SceneObjectType)`. -/
def SceneObject.classKind {G P I F : Type} : SceneObject G P I F → SceneObjectType
  | VertexArray _ => SceneObjectType.kSceneObjectTypeVertexArray
  | IndexArray _ => SceneObjectType.kSceneObjectTypeIndexArray
  | Mesh _ => SceneObjectType.kSceneObjectTypeMesh
  | Material _ => SceneObjectType.kSceneObjectTypeMaterial
  | Geometry _ => SceneObjectType.kSceneObjectTypeGeometry
  | OmniLight _ => SceneObjectType.kSceneObjectTypeLight
  | SpotLight _ => SceneObjectType.kSceneObjectTypeLight
  | Camera _ => SceneObjectType.kSceneObjectTypeCamera

/-! ## The life of one object, and the objects of a program -/

/-- The states of one object over its life. `Lifetime newGuid x0 x`: the
object was constructed as `x0` by a constructor call of its class, and `x` is
what it holds after any number of the operations that apply to it: `AddMesh`,
`AddVertxArray`, `AddIndexArray`, and move assignment from another object of
its class that has itself been constructed and operated on in this way. -/
inductive Lifetime {σ G P I F : Type} [Zero F] [One F] (newGuid : σ → G × σ) :
    SceneObject G P I F → SceneObject G P I F → Prop where
  | constructed (c : Construction P I F) (st : σ) :
      Lifetime newGuid (c.run newGuid st).1 (c.run newGuid st).1
  | addMesh {x0 : SceneObject G P I F} {geom : SceneObjectGeometry G P}
      (mesh : SceneObjectMesh G P) :
      Lifetime newGuid x0 (SceneObject.Geometry geom) →
      Lifetime newGuid x0 (SceneObject.Geometry (geom.AddMesh mesh))
  | addVertxArray {x0 : SceneObject G P I F} {mesh : SceneObjectMesh G P}
      (array : SceneObjectVertexArray G P) :
      Lifetime newGuid x0 (SceneObject.Mesh mesh) →
      Lifetime newGuid x0 (SceneObject.Mesh (mesh.AddVertxArray array))
  | addIndexArray {x0 : SceneObject G P I F} {mesh : SceneObjectMesh G P}
      (array : SceneObjectIndexArray G P) :
      Lifetime newGuid x0 (SceneObject.Mesh mesh) →
      Lifetime newGuid x0 (SceneObject.Mesh (mesh.AddIndexArray array))
  | moveAssign {x0 x y0 y z : SceneObject G P I F} :
      Lifetime newGuid x0 x → Lifetime newGuid y0 y → x.moveAssign y = some z →
      Lifetime newGuid x0 z

/-- The states of one object while nothing is move-assigned into it.
`AppendLife newGuid x0 x`: the object was constructed as `x0` by a constructor
call of its class, and `x` is what it holds after any number of calls of
`AddMesh`, `AddVertxArray` and `AddIndexArray` on it. -/
inductive AppendLife {σ G P I F : Type} [Zero F] [One F] (newGuid : σ → G × σ) :
    SceneObject G P I F → SceneObject G P I F → Prop where
  | constructed (c : Construction P I F) (st : σ) :
      AppendLife newGuid (c.run newGuid st).1 (c.run newGuid st).1
  | addMesh {x0 : SceneObject G P I F} {geom : SceneObjectGeometry G P}
      (mesh : SceneObjectMesh G P) :
      AppendLife newGuid x0 (SceneObject.Geometry geom) →
      AppendLife newGuid x0 (SceneObject.Geometry (geom.AddMesh mesh))
  | addVertxArray {x0 : SceneObject G P I F} {mesh : SceneObjectMesh G P}
      (array : SceneObjectVertexArray G P) :
      AppendLife newGuid x0 (SceneObject.Mesh mesh) →
      AppendLife newGuid x0 (SceneObject.Mesh (mesh.AddVertxArray array))
  | addIndexArray {x0 : SceneObject G P I F} {mesh : SceneObjectMesh G P}
      (array : SceneObjectIndexArray G P) :
      AppendLife newGuid x0 (SceneObject.Mesh mesh) →
      AppendLife newGuid x0 (SceneObject.Mesh (mesh.AddIndexArray array))

/-- The identities that a mesh holds: its own and those of the arrays it owns. -/
def SceneObjectMesh.guids {G P : Type} (self : SceneObjectMesh G P) : List G :=
  self.GetGuid :: (self.m_VertexArray.map (fun a => a.GetGuid)
    ++ self.m_IndexArray.map (fun a => a.GetGuid))

/-- The identities that a geometry holds: its own and those of the meshes it
owns, with their arrays. -/
def SceneObjectGeometry.guids {G P : Type} (self : SceneObjectGeometry G P) : List G :=
  self.GetGuid :: self.m_Mesh.flatMap SceneObjectMesh.guids

/-- The identities that an object holds: its own and those of every object
it owns. -/
def SceneObject.guids {G P I F : Type} : SceneObject G P I F → List G
  | Mesh o => o.guids
  | Geometry o => o.guids
  | o => [o.toBase.GetGuid]

/-- The state of a program: the objects that are alive and not moved from,
each one standing for itself and for the objects it owns, and the state of
the identity service. -/
structure World (σ G P I F : Type) where
  live : List (SceneObject G P I F)
  svc : σ

/-- The identities of all live objects, owned objects included. -/
def World.guids {σ G P I F : Type} (w : World σ G P I F) : List G :=
  w.live.flatMap SceneObject.guids

/-- One operation of a program on its objects. Copying is no operation: the
copy constructor and copy assignment are deleted. An object that is moved
from, or handed to `AddMesh`, `AddVertxArray` or `AddIndexArray`, leaves the
live objects; the object it is moved into, or the element appended for it,
stands in its place. -/
inductive Step {σ G P I F : Type} [Zero F] [One F] (newGuid : σ → G × σ) :
    World σ G P I F → World σ G P I F → Prop where
  | construct (w : World σ G P I F) (c : Construction P I F) :
      Step newGuid w
        { live := (c.run newGuid w.svc).1 :: w.live, svc := (c.run newGuid w.svc).2 }
  | moveConstruct (w : World σ G P I F) (x : SceneObject G P I F)
      (rest : List (SceneObject G P I F)) :
      w.live.Perm (x :: rest) →
      Step newGuid w { live := x.moveCtor :: rest, svc := w.svc }
  | moveAssign (w : World σ G P I F) (x y z : SceneObject G P I F)
      (rest : List (SceneObject G P I F)) :
      w.live.Perm (x :: y :: rest) → x.moveAssign y = some z →
      Step newGuid w { live := z :: rest, svc := w.svc }
  | addMesh (w : World σ G P I F) (geom : SceneObjectGeometry G P)
      (mesh : SceneObjectMesh G P) (rest : List (SceneObject G P I F)) :
      w.live.Perm (SceneObject.Geometry geom :: SceneObject.Mesh mesh :: rest) →
      Step newGuid w { live := SceneObject.Geometry (geom.AddMesh mesh) :: rest, svc := w.svc }
  | addVertxArray (w : World σ G P I F) (mesh : SceneObjectMesh G P)
      (array : SceneObjectVertexArray G P) (rest : List (SceneObject G P I F)) :
      w.live.Perm (SceneObject.Mesh mesh :: SceneObject.VertexArray array :: rest) →
      Step newGuid w { live := SceneObject.Mesh (mesh.AddVertxArray array) :: rest, svc := w.svc }
  | addIndexArray (w : World σ G P I F) (mesh : SceneObjectMesh G P)
      (array : SceneObjectIndexArray G P) (rest : List (SceneObject G P I F)) :
      w.live.Perm (SceneObject.Mesh mesh :: SceneObject.IndexArray array :: rest) →
      Step newGuid w { live := SceneObject.Mesh (mesh.AddIndexArray array) :: rest, svc := w.svc }
  | destroy (w : World σ G P I F) (x : SceneObject G P I F)
      (rest : List (SceneObject G P I F)) :
      w.live.Perm (x :: rest) →
      Step newGuid w { live := rest, svc := w.svc }

/-- The states a program reaches from no objects at all and the identity
service in state `st`. -/
inductive Reachable {σ G P I F : Type} [Zero F] [One F] (newGuid : σ → G × σ) (st : σ) :
    World σ G P I F → Prop where
  | start : Reachable newGuid st { live := [], svc := st }
  | step {w w' : World σ G P I F} :
      Reachable newGuid st w → Step newGuid w w' → Reachable newGuid st w'

/-- The state of the identity service after `n` calls of `newGuid` from
state `st`. -/
def svcAfter {σ G : Type} (newGuid : σ → G × σ) : Nat → σ → σ
  | 0, st => st
  | n + 1, st => svcAfter newGuid n (newGuid st).2

/-! ## Lemmas on the codec and on byte order -/

theorem wrap32_emod (n : Int) : wrap32 n % 4294967296 = n % 4294967296 := by
  unfold wrap32; omega

theorem wrap32_of_range (n : Int) (h0 : -2147483648 ≤ n) (h1 : n < 2147483648) :
    wrap32 n = n := by
  unfold wrap32; omega

theorem i32_four (b0 b1 b2 b3 : Int) (h0 : 1 ≤ b0 ∧ b0 ≤ 127) (h1 : 1 ≤ b1 ∧ b1 ≤ 127)
    (h2 : 1 ≤ b2 ∧ b2 ≤ 127) (h3 : 1 ≤ b3 ∧ b3 ≤ 127) :
    details.i32 [b0, b1, b2, b3] 0 = ((b0 * 256 + b1) * 256 + b2) * 256 + b3 := by
  have n0 : b0 ≠ 0 := by omega
  have n1 : b1 ≠ 0 := by omega
  have n2 : b2 ≠ 0 := by omega
  have n3 : b3 ≠ 0 := by omega
  simp only [details.i32, ne_eq, n0, n1, n2, n3, not_false_eq_true, if_true, zero_mul, zero_add]
  rw [wrap32_of_range b0 (by omega) (by omega)]
  rw [wrap32_of_range (b0 * 256 + b1) (by omega) (by omega)]
  rw [wrap32_of_range ((b0 * 256 + b1) * 256 + b2) (by omega) (by omega)]
  rw [wrap32_of_range (((b0 * 256 + b1) * 256 + b2) * 256 + b3) (by omega) (by omega)]

theorem isTagChar_int (c : Char) (h : isTagChar c) :
    1 ≤ Int.ofNat c.toNat ∧ Int.ofNat c.toNat ≤ 127 := by
  unfold isTagChar at h
  simp only [Int.ofNat_eq_coe]
  omega

theorem list_length_four {α : Type} (s : List α) (h : s.length = 4) :
    ∃ a b c d, s = [a, b, c, d] := by
  match s, h with
  | [a, b, c, d], _ => exact ⟨a, b, c, d, rfl⟩

theorem i32_tag (a b c d : Char) (ha : isTagChar a) (hb : isTagChar b) (hc : isTagChar c)
    (hd : isTagChar d) :
    details.i32 (cstr [a, b, c, d]) 0
      = ((Int.ofNat a.toNat * 256 + Int.ofNat b.toNat) * 256 + Int.ofNat c.toNat) * 256
          + Int.ofNat d.toNat := by
  simp only [cstr, List.map]
  exact i32_four _ _ _ _ (isTagChar_int a ha) (isTagChar_int b hb) (isTagChar_int c hc)
    (isTagChar_int d hd)

theorem netBytes_ofBE (a b c d : Nat) (ha : a < 256) (hb : b < 256) (hc : c < 256) (hd : d < 256) :
    netBytes (wrap32 (((Int.ofNat a * 256 + Int.ofNat b) * 256 + Int.ofNat c) * 256 + Int.ofNat d))
      = [a, b, c, d] := by
  simp only [netBytes, wrap32_emod, Int.ofNat_eq_coe]
  have h : ((((a:Int) * 256 + b) * 256 + c) * 256 + d) % 4294967296
      = ((((a * 256 + b) * 256 + c) * 256 + d : Nat) : Int) := by
    push_cast
    omega
  rw [h, Int.toNat_natCast]
  simp only [List.cons.injEq, and_true]
  refine ⟨?_, ?_, ?_, ?_⟩ <;> omega

theorem netBytes_shape (n : Int) :
    ∃ a b c d : Nat, a < 256 ∧ b < 256 ∧ c < 256 ∧ d < 256 ∧ netBytes n = [a, b, c, d] := by
  refine ⟨_, _, _, _, ?_, ?_, ?_, ?_, rfl⟩ <;> exact Nat.mod_lt _ (by decide)

theorem memBytes_ofMemBytes (le : Bool) (a b c d : Nat)
    (ha : a < 256) (hb : b < 256) (hc : c < 256) (hd : d < 256) :
    memBytes le (ofMemBytes le [a, b, c, d]) = [a, b, c, d] := by
  cases le
  · simp only [memBytes, ofMemBytes, Bool.false_eq_true, if_false, List.foldl, zero_mul, zero_add,
      Nat.mod_eq_of_lt ha, Nat.mod_eq_of_lt hb, Nat.mod_eq_of_lt hc, Nat.mod_eq_of_lt hd]
    exact netBytes_ofBE a b c d ha hb hc hd
  · simp only [memBytes, ofMemBytes, if_true, List.reverse_cons, List.reverse_nil, List.nil_append,
      List.cons_append, List.foldl, zero_mul, zero_add,
      Nat.mod_eq_of_lt ha, Nat.mod_eq_of_lt hb, Nat.mod_eq_of_lt hc, Nat.mod_eq_of_lt hd]
    rw [netBytes_ofBE d c b a hd hc hb ha]
    rfl

theorem putSceneObjectType_eq (le : Bool) (out : ostream) (type : Int) :
    putSceneObjectType le out type = out ++ (netBytes type).map Char.ofNat := by
  obtain ⟨a, b, c, d, ha, hb, hc, hd, h⟩ := netBytes_shape type
  simp only [putSceneObjectType, endian_net_unsigned_int, h,
    memBytes_ofMemBytes le a b c d ha hb hc hd]
  simp [putChars]

theorem putSceneObjectType_tag (le : Bool) (out : ostream) (s : List Char)
    (hlen : s.length = 4) (hs : ∀ c ∈ s, isTagChar c) :
    putSceneObjectType le out (details.i32 (cstr s) 0) = out ++ s := by
  obtain ⟨a, b, c, d, rfl⟩ := list_length_four s hlen
  have ha := hs a (by simp)
  have hb := hs b (by simp)
  have hc := hs c (by simp)
  have hd := hs d (by simp)
  rw [putSceneObjectType_eq, i32_tag a b c d ha hb hc hd]
  have e := netBytes_ofBE a.toNat b.toNat c.toNat d.toNat
    (by unfold isTagChar at ha; omega) (by unfold isTagChar at hb; omega)
    (by unfold isTagChar at hc; omega) (by unfold isTagChar at hd; omega)
  rw [wrap32_of_range _ (by have := isTagChar_int a ha; have := isTagChar_int b hb; have := isTagChar_int c hc; have := isTagChar_int d hd; omega)
    (by have := isTagChar_int a ha; have := isTagChar_int b hb; have := isTagChar_int c hc; have := isTagChar_int d hd; omega)] at e
  rw [e]
  simp [Char.ofNat_toNat]

theorem i32_tag_injective (s1 s2 : List Char) (hlen1 : s1.length = 4) (hlen2 : s2.length = 4)
    (hs1 : ∀ c ∈ s1, isTagChar c) (hs2 : ∀ c ∈ s2, isTagChar c)
    (h : details.i32 (cstr s1) 0 = details.i32 (cstr s2) 0) : s1 = s2 := by
  obtain ⟨a, b, c, d, rfl⟩ := list_length_four s1 hlen1
  obtain ⟨a', b', c', d', rfl⟩ := list_length_four s2 hlen2
  have ha := isTagChar_int a (hs1 a (by simp))
  have hb := isTagChar_int b (hs1 b (by simp))
  have hc := isTagChar_int c (hs1 c (by simp))
  have hd := isTagChar_int d (hs1 d (by simp))
  have ha' := isTagChar_int a' (hs2 a' (by simp))
  have hb' := isTagChar_int b' (hs2 b' (by simp))
  have hc' := isTagChar_int c' (hs2 c' (by simp))
  have hd' := isTagChar_int d' (hs2 d' (by simp))
  rw [i32_tag a b c d (hs1 a (by simp)) (hs1 b (by simp)) (hs1 c (by simp)) (hs1 d (by simp)),
    i32_tag a' b' c' d' (hs2 a' (by simp)) (hs2 b' (by simp)) (hs2 c' (by simp))
      (hs2 d' (by simp))] at h
  simp only [Int.ofNat_eq_coe] at h ha hb hc hd ha' hb' hc' hd'
  have ea : a.toNat = a'.toNat := by omega
  have eb : b.toNat = b'.toNat := by omega
  have ec : c.toNat = c'.toNat := by omega
  have ed : d.toNat = d'.toNat := by omega
  have ea2 : a = a' := by rw [← Char.ofNat_toNat a, ← Char.ofNat_toNat a', ea]
  have eb2 : b = b' := by rw [← Char.ofNat_toNat b, ← Char.ofNat_toNat b', eb]
  have ec2 : c = c' := by rw [← Char.ofNat_toNat c, ← Char.ofNat_toNat c', ec]
  have ed2 : d = d' := by rw [← Char.ofNat_toNat d, ← Char.ofNat_toNat d', ed]
  rw [ea2, eb2, ec2, ed2]

/-! ## Type-tag codec: claims -/

/-- C1. Round trip of the type-tag codec: for every string `s` of exactly four
ASCII characters (each byte in 1..127), writing the tag `details::i32(s, 0)`
through `operator<<(ostream, SceneObjectType)` appends exactly the four
characters of `s` in their original order, on a host of either byte order. -/
theorem tag_dump_roundtrip (le : Bool) (out : ostream) (s : List Char)
    (hlen : s.length = 4) (hs : ∀ c ∈ s, isTagChar c) :
    putSceneObjectType le out (details.i32 (cstr s) 0) = out ++ s :=
  putSceneObjectType_tag le out s hlen hs

/-- C1, witness: the tag of "MESH" prints MESH. -/
theorem tag_dump_roundtrip_witness :
    "MESH".toList.length = 4 ∧ (∀ c ∈ "MESH".toList, isTagChar c) ∧
      putSceneObjectType true [] (details.i32 (cstr "MESH".toList) 0) = "MESH".toList :=
  ⟨by decide, by decide, tag_dump_roundtrip true [] "MESH".toList (by decide) (by decide)⟩

/-- C2. The codec is the left fold `v = v*256 + c` started at 0: for every
four-character ASCII string with bytes `b0 b1 b2 b3` (each in 1..127),
`details::i32(s, 0)`, the value of the `_i32` literal, is
`b0*256^3 + b1*256^2 + b2*256 + b3`, and it is the fold over unbounded
integers. -/
theorem i32_eq_left_fold (b0 b1 b2 b3 : Int) (h0 : 1 ≤ b0 ∧ b0 ≤ 127)
    (h1 : 1 ≤ b1 ∧ b1 ≤ 127) (h2 : 1 ≤ b2 ∧ b2 ≤ 127) (h3 : 1 ≤ b3 ∧ b3 ≤ 127) :
    details.i32 [b0, b1, b2, b3] 0 = b0 * 256 ^ 3 + b1 * 256 ^ 2 + b2 * 256 + b3 ∧
      details.i32 [b0, b1, b2, b3] 0 = foldTag [b0, b1, b2, b3] 0 := by
  rw [i32_four b0 b1 b2 b3 h0 h1 h2 h3]
  constructor
  · ring
  · simp [foldTag]

/-- C2, witness: "MESH", the bytes 77 69 83 72, encodes to 1296388936
(0x4D455348). -/
theorem i32_eq_left_fold_witness :
    cstr "MESH".toList = [77, 69, 83, 72] ∧ _i32 "MESH".toList = 1296388936 ∧
      details.i32 [77, 69, 83, 72] 0 = 77 * 256 ^ 3 + 69 * 256 ^ 2 + 83 * 256 + 72 ∧
      details.i32 [77, 69, 83, 72] 0 = foldTag [77, 69, 83, 72] 0 :=
  ⟨by decide, by decide,
    i32_eq_left_fold 77 69 83 72 (by decide) (by decide) (by decide) (by decide)⟩

/-! ## Lemmas on moves and on runs of constructions -/

theorem Construction.run_guid {σ G P I F : Type} [Zero F] [One F] (newGuid : σ → G × σ)
    (c : Construction P I F) (st : σ) :
    (c.run newGuid st).1.toBase.GetGuid = (newGuid st).1 ∧ (c.run newGuid st).2 = (newGuid st).2 := by
  cases c <;> exact ⟨rfl, rfl⟩

theorem constructAll_guids {σ G P I F : Type} [Zero F] [One F] (newGuid : σ → G × σ)
    (calls : List (Construction P I F)) (st : σ) :
    (constructAll newGuid calls st).1.map (fun o => o.toBase.GetGuid)
      = issued newGuid calls.length st := by
  induction calls generalizing st with
  | nil => rfl
  | cons c cs ih =>
    simp only [constructAll, List.map_cons, List.length_cons, issued]
    rw [(Construction.run_guid newGuid c st).1, (Construction.run_guid newGuid c st).2, ih]

theorem issued_length {σ G : Type} (newGuid : σ → G × σ) (n : Nat) (st : σ) :
    (issued newGuid n st).length = n := by
  induction n generalizing st with
  | zero => rfl
  | succ n ih => simp only [issued, List.length_cons, ih]

theorem issued_counterGuid (n st : Nat) : issued counterGuid n st = List.range' st n := by
  induction n generalizing st with
  | zero => rfl
  | succ n ih => simp only [issued, counterGuid, ih, List.range'_succ]

theorem counterGuid_neverRepeats (st : Nat) : NeverRepeats counterGuid st := by
  intro n
  rw [issued_counterGuid]
  exact List.nodup_range' st n

/-! ## BaseSceneObject: claims -/

/-- C3. Move transfers identity and kind: for every scene object `a`, the
object produced by move-constructing from `a`, and any object `b` after
move-assigning `a` into it, has the identity and the kind that `a` had. The
same holds for the implicit move constructors of the vertex array, the index
array and the mesh. -/
theorem move_transfers_identity_and_kind {G P : Type} (a b : BaseSceneObject G)
    (v : SceneObjectVertexArray G P) (i : SceneObjectIndexArray G P) (m : SceneObjectMesh G P) :
    ((BaseSceneObject.moveCtor a).GetGuid = a.GetGuid ∧
      (BaseSceneObject.moveCtor a).GetType = a.GetType) ∧
    ((BaseSceneObject.moveAssign b a).GetGuid = a.GetGuid ∧
      (BaseSceneObject.moveAssign b a).GetType = a.GetType) ∧
    ((SceneObjectVertexArray.moveCtor v).GetGuid = v.GetGuid ∧
      (SceneObjectVertexArray.moveCtor v).GetType = v.GetType) ∧
    ((SceneObjectIndexArray.moveCtor i).GetGuid = i.GetGuid ∧
      (SceneObjectIndexArray.moveCtor i).GetType = i.GetType) ∧
    ((SceneObjectMesh.moveCtor m).GetGuid = m.GetGuid ∧
      (SceneObjectMesh.moveCtor m).GetType = m.GetType) :=
  ⟨⟨rfl, rfl⟩, ⟨rfl, rfl⟩, ⟨rfl, rfl⟩, ⟨rfl, rfl⟩, ⟨rfl, rfl⟩⟩

/-- C4. A supplied identity is preserved, not regenerated: for every
identifier `g` and kind `k`, the object built by either identity-accepting
constructor (`Guid&` or `Guid&&`) has `GetGuid() == g` and `GetType() == k`,
and the state of the identity service is the one before the call: `newGuid`
is not consulted. -/
theorem supplied_identity_preserved {σ G : Type} (g : G) (k : SceneObjectType) (st : σ) :
    ((BaseSceneObject.ctorGuid g k st).1.GetGuid = g ∧
      (BaseSceneObject.ctorGuid g k st).1.GetType = k ∧
      (BaseSceneObject.ctorGuid g k st).2 = st) ∧
    ((BaseSceneObject.ctorGuidMove g k st).1.GetGuid = g ∧
      (BaseSceneObject.ctorGuidMove g k st).1.GetType = k ∧
      (BaseSceneObject.ctorGuidMove g k st).2 = st) :=
  ⟨⟨rfl, rfl, rfl⟩, ⟨rfl, rfl, rfl⟩⟩

/-- C5. Identity uniqueness on the fresh-identity path: for an identity
service that never returns the same identifier twice, every run of `N`
constructor calls of the concrete classes (each reaches the kind-only
constructor and calls `newGuid` once) yields `N` objects whose `GetGuid()`
values are pairwise distinct. -/
theorem fresh_identities_distinct {σ G P I F : Type} [Zero F] [One F] (newGuid : σ → G × σ)
    (st : σ) (h : NeverRepeats newGuid st) (calls : List (Construction P I F)) :
    ((constructAll newGuid calls st).1.map (fun o => o.toBase.GetGuid)).length = calls.length ∧
      ((constructAll newGuid calls st).1.map (fun o => o.toBase.GetGuid)).Nodup := by
  rw [constructAll_guids]
  exact ⟨issued_length newGuid calls.length st, h calls.length⟩

/-- C5, witness: a geometry, a mesh, a vertex array, an index array and a
material constructed against the counting service started at 0. -/
theorem fresh_identities_distinct_witness :
    NeverRepeats counterGuid 0 ∧
      ((constructAll counterGuid
          ([Construction.Geometry, Construction.Mesh none none none,
            Construction.VertexArray "position" () 12 VertexDataType.kVertexDataTypeFloat3 none,
            Construction.IndexArray 0 none none,
            Construction.Material none none none none none none] :
            List (Construction Unit Unit Int)) 0).1.map
        (fun o => o.toBase.GetGuid)).length = 5 ∧
      ((constructAll counterGuid
          ([Construction.Geometry, Construction.Mesh none none none,
            Construction.VertexArray "position" () 12 VertexDataType.kVertexDataTypeFloat3 none,
            Construction.IndexArray 0 none none,
            Construction.Material none none none none none none] :
            List (Construction Unit Unit Int)) 0).1.map
        (fun o => o.toBase.GetGuid)).Nodup :=
  ⟨counterGuid_neverRepeats 0,
    fresh_identities_distinct counterGuid 0 (counterGuid_neverRepeats 0) _⟩

/-! ## Composite entities: claims -/

/-- C6. Append order is preserved: for every geometry with mesh sequence `ms`
and every mesh `m`, `AddMesh(m)` makes the sequence `ms ++ [m]`; calling
`AddMesh` with `A`, `B`, `C` in that order on a new geometry yields exactly
the sequence `A`, `B`, `C`, also when read by identities. The same holds for
`AddVertxArray` and `AddIndexArray` on the two sequences of a mesh. -/
theorem append_order_preserved {σ G P : Type} (newGuid : σ → G × σ) (st : σ)
    (geom : SceneObjectGeometry G P) (m A B C : SceneObjectMesh G P)
    (mesh : SceneObjectMesh G P) (v : SceneObjectVertexArray G P)
    (i : SceneObjectIndexArray G P) :
    (geom.AddMesh m).m_Mesh = geom.m_Mesh ++ [m] ∧
    ((((SceneObjectGeometry.ctor newGuid st).1.AddMesh A).AddMesh B).AddMesh C).m_Mesh
      = [A, B, C] ∧
    ((((SceneObjectGeometry.ctor newGuid st).1.AddMesh A).AddMesh B).AddMesh C).m_Mesh.map
        (fun x => x.GetGuid) = [A.GetGuid, B.GetGuid, C.GetGuid] ∧
    (mesh.AddVertxArray v).m_VertexArray = mesh.m_VertexArray ++ [v] ∧
    (mesh.AddIndexArray i).m_IndexArray = mesh.m_IndexArray ++ [i] :=
  ⟨rfl, rfl, rfl, rfl, rfl⟩

/-- C7. Build scenario: a new mesh that receives one vertex array built from
an attribute name, a buffer handle, a byte size and a data type, and one index
array, and is then appended to a new geometry, gives a geometry holding
exactly one mesh, which holds exactly one vertex array whose attribute name,
data type and byte size are the constructor arguments, and exactly one index
array. The four constructions may run in any state of the identity service. -/
theorem build_scenario {σ G P : Type} (newGuid : σ → G × σ) (s1 s2 s3 s4 : σ)
    (attr : String) (data : P) (data_size : Nat) (data_type : VertexDataType)
    (morph_index : Option Nat) (material_index : Nat) (index_type : Option IndexDataType)
    (restart_index : Option Nat) (visible shadow motion_blur : Option Bool) :
    ∃ (m : SceneObjectMesh G P) (v : SceneObjectVertexArray G P) (i : SceneObjectIndexArray G P),
      ((SceneObjectGeometry.ctor newGuid s4).1.AddMesh
        (((SceneObjectMesh.ctor newGuid visible shadow motion_blur s3).1.AddVertxArray
            (SceneObjectVertexArray.ctor newGuid attr data data_size data_type morph_index s1).1).AddIndexArray
          (SceneObjectIndexArray.ctor newGuid material_index index_type restart_index s2).1)).m_Mesh
        = [m] ∧
      m.m_VertexArray = [v] ∧ m.m_IndexArray = [i] ∧
      v.m_Attribute = attr ∧ v.m_DataType = data_type ∧ v.m_szData = data_size ∧
      v.m_pDataFloat = data ∧
      i = (SceneObjectIndexArray.ctor newGuid material_index index_type restart_index s2).1 :=
  ⟨_, _, _, rfl, rfl, rfl, rfl, rfl, rfl, rfl, rfl⟩

/-- C7, witness: attribute "position", float3, 12 bytes, index type int16,
against the counting identity service. -/
theorem build_scenario_witness :
    ∃ (m : SceneObjectMesh Nat Unit) (v : SceneObjectVertexArray Nat Unit)
      (i : SceneObjectIndexArray Nat Unit),
      ((SceneObjectGeometry.ctor counterGuid 3).1.AddMesh
        (((SceneObjectMesh.ctor counterGuid none none none 2).1.AddVertxArray
            (SceneObjectVertexArray.ctor counterGuid "position" ()
              12 VertexDataType.kVertexDataTypeFloat3 none 0).1).AddIndexArray
          (SceneObjectIndexArray.ctor counterGuid 0
            (some IndexDataType.kIndexDataTypeInt16) none 1).1)).m_Mesh
        = [m] ∧
      m.m_VertexArray = [v] ∧ m.m_IndexArray = [i] ∧
      v.m_Attribute = "position" ∧ v.m_DataType = VertexDataType.kVertexDataTypeFloat3 ∧
      v.m_szData = 12 ∧ v.m_pDataFloat = () ∧
      i = (SceneObjectIndexArray.ctor counterGuid 0
            (some IndexDataType.kIndexDataTypeInt16) none 1).1 :=
  build_scenario counterGuid 0 1 2 3 "position" () 12 VertexDataType.kVertexDataTypeFloat3 none 0
    (some IndexDataType.kIndexDataTypeInt16) none none none none

/-! ## ParameterMap and material: claims -/

/-- C8. Default material: `SceneObjectMaterial()` without arguments has all
six parameters in single-value mode with base colour (1,1,1,1), metallic 0,
roughness 0, normal (0,0,1), specular 0 and ambient occlusion 1; and in every
call each stored field is the argument supplied for it, or else this default. -/
theorem default_material {σ G I F : Type} [Zero F] [One F] (newGuid : σ → G × σ) (st : σ)
    (base_color : Option (Color I F)) (metallic roughness : Option (Parameter I F))
    (normal : Option (Normal I F)) (specular ao : Option (Parameter I F)) :
    ((SceneObjectMaterial.ctor newGuid none none none none none none st).1
      = ({ toBaseSceneObject :=
             (BaseSceneObject.ctor newGuid SceneObjectType.kSceneObjectTypeMaterial st).1
           m_BaseColor := { bUsingSingleValue := true
                            u := ParameterUnion.Value { x := 1, y := 1, z := 1, w := 1 } }
           m_Metallic := { bUsingSingleValue := true, u := ParameterUnion.Value 0 }
           m_Roughness := { bUsingSingleValue := true, u := ParameterUnion.Value 0 }
           m_Normal := { bUsingSingleValue := true
                         u := ParameterUnion.Value { x := 0, y := 0, z := 1 } }
           m_Specular := { bUsingSingleValue := true, u := ParameterUnion.Value 0 }
           m_AmbientOcclusion := { bUsingSingleValue := true, u := ParameterUnion.Value 1 } } :
          SceneObjectMaterial G I F)) ∧
    ((SceneObjectMaterial.ctor newGuid base_color metallic roughness normal specular ao st).1
      = ({ toBaseSceneObject :=
             (BaseSceneObject.ctor newGuid SceneObjectType.kSceneObjectTypeMaterial st).1
           m_BaseColor := base_color.getD
             { bUsingSingleValue := true
               u := ParameterUnion.Value { x := 1, y := 1, z := 1, w := 1 } }
           m_Metallic := metallic.getD { bUsingSingleValue := true, u := ParameterUnion.Value 0 }
           m_Roughness := roughness.getD { bUsingSingleValue := true, u := ParameterUnion.Value 0 }
           m_Normal := normal.getD
             { bUsingSingleValue := true, u := ParameterUnion.Value { x := 0, y := 0, z := 1 } }
           m_Specular := specular.getD { bUsingSingleValue := true, u := ParameterUnion.Value 0 }
           m_AmbientOcclusion := ao.getD
             { bUsingSingleValue := true, u := ParameterUnion.Value 1 } } :
          SceneObjectMaterial G I F)) :=
  ⟨rfl, rfl⟩

/-- C9. Tagged-union construction: for every value `v`, `ParameterMap<T>(v)`
has `bUsingSingleValue == true` and its value arm is `v`; and no constructor
of `ParameterMap`, the declared one or the implicit copy, produces an instance
with `bUsingSingleValue == false`. -/
theorem parameterMap_single_value {T I : Type} (v : T) :
    (ParameterMap.ctor v : ParameterMap T I).bUsingSingleValue = true ∧
      (ParameterMap.ctor v : ParameterMap T I).Value = some v ∧
      ∀ p : ParameterMap T I, ParameterMap.Constructed p →
        p.bUsingSingleValue = true ∧ ∃ w, p.Value = some w := by
  refine ⟨rfl, rfl, ?_⟩
  intro p hp
  induction hp with
  | ofValue w => exact ⟨rfl, w, rfl⟩
  | ofCopy other _ ih => exact ih

/-- C9, witness: the copy of `ParameterMap<int>(7)` is in single-value mode. -/
theorem parameterMap_single_value_witness :
    ParameterMap.Constructed (ParameterMap.copyCtor (ParameterMap.ctor 7 : ParameterMap Int Unit)) ∧
      (ParameterMap.copyCtor (ParameterMap.ctor 7 : ParameterMap Int Unit)).bUsingSingleValue
        = true :=
  ⟨ParameterMap.Constructed.ofCopy _ (ParameterMap.Constructed.ofValue 7),
    ((parameterMap_single_value (7 : Int)).2.2 _
      (ParameterMap.Constructed.ofCopy _ (ParameterMap.Constructed.ofValue 7))).1⟩

/-! ## Debug dump: claims -/

/-- C10. Debug-dump format: for every scene object with identity `g` and kind
the tag of a four-character ASCII code `s`, `operator<<(ostream,
BaseSceneObject)` appends exactly the four lines "SceneObject",
"-----------", "GUID: " followed by the text of `g`, and "Type: " followed by
`s`, each ended by a newline, in that order. The object is read through a
reference to const: the operation returns the stream alone. -/
theorem dump_format {G : Type} (le : Bool) (guidText : G → List Char) (out : ostream)
    (obj : BaseSceneObject G) (g : G) (s : List Char) (hg : obj.GetGuid = g)
    (hlen : s.length = 4) (hs : ∀ c ∈ s, isTagChar c)
    (hk : obj.GetType = details.i32 (cstr s) 0) :
    putBaseSceneObject le guidText out obj
      = out ++ line "SceneObject".toList ++ line "-----------".toList
          ++ line ("GUID: ".toList ++ guidText g) ++ line ("Type: ".toList ++ s) := by
  cases obj with
  | mk guid type =>
    simp only [BaseSceneObject.GetGuid, BaseSceneObject.GetType] at hg hk
    subst hg hk
    simp only [putBaseSceneObject, putGuid, endl, line, putSceneObjectType_tag le _ s hlen hs,
      List.append_assoc]

/-- C10, witness: an object of kind `kSceneObjectTypeMesh` whose identifier
has the text "guid" dumps as the four lines ending in "Type: MESH". -/
theorem dump_format_witness :
    "MESH".toList.length = 4 ∧ (∀ c ∈ "MESH".toList, isTagChar c) ∧
      putBaseSceneObject true (fun _ => "guid".toList) []
          ({ m_Guid := (), m_Type := SceneObjectType.kSceneObjectTypeMesh } : BaseSceneObject Unit)
        = [] ++ line "SceneObject".toList ++ line "-----------".toList
            ++ line ("GUID: ".toList ++ "guid".toList) ++ line ("Type: ".toList ++ "MESH".toList) :=
  ⟨by decide, by decide,
    dump_format true (fun _ => "guid".toList) [] _ () "MESH".toList rfl (by decide) (by decide) rfl⟩

/-! ## Enumerations and codec: further claims -/

/-- C11. Enumeration collisions: `kSceneObjectTypeVertexArray` and
`kSceneObjectTypeIndexArray` have the same value, the tag of "VARR", and
`kVertexDataTypeDouble3` and `kVertexDataTypeDouble4` have the same value,
the tag of "DUB3"; so a newly constructed index array and a newly constructed
vertex array report the same `GetType()`. These are the only equal pairs: with
`kSceneObjectTypeIndexArray` and `kVertexDataTypeDouble4` left out, the
members of the three enumerations are pairwise distinct. -/
theorem enumeration_collisions {σ G P : Type} (newGuid : σ → G × σ) (s1 s2 : σ)
    (attr : String) (data : P) (data_size : Nat) (data_type : VertexDataType)
    (morph_index : Option Nat) (material_index : Nat) (index_type : Option IndexDataType)
    (restart_index : Option Nat) :
    (SceneObjectType.kSceneObjectTypeVertexArray = SceneObjectType.kSceneObjectTypeIndexArray ∧
      SceneObjectType.kSceneObjectTypeVertexArray = _i32 "VARR".toList) ∧
    (VertexDataType.kVertexDataTypeDouble3 = VertexDataType.kVertexDataTypeDouble4 ∧
      VertexDataType.kVertexDataTypeDouble3 = _i32 "DUB3".toList) ∧
    ((SceneObjectIndexArray.ctor newGuid material_index index_type restart_index s2 :
        SceneObjectIndexArray G P × σ).1.GetType
      = (SceneObjectVertexArray.ctor newGuid attr data data_size data_type morph_index s1).1.GetType) ∧
    [SceneObjectType.kSceneObjectTypeMesh, SceneObjectType.kSceneObjectTypeMaterial,
      SceneObjectType.kSceneObjectTypeTexture, SceneObjectType.kSceneObjectTypeLight,
      SceneObjectType.kSceneObjectTypeCamera, SceneObjectType.kSceneObjectTypeAnimator,
      SceneObjectType.kSceneObjectTypeClip, SceneObjectType.kSceneObjectTypeVertexArray,
      SceneObjectType.kSceneObjectTypeGeometry,
      VertexDataType.kVertexDataTypeFloat1, VertexDataType.kVertexDataTypeFloat2,
      VertexDataType.kVertexDataTypeFloat3, VertexDataType.kVertexDataTypeFloat4,
      VertexDataType.kVertexDataTypeDouble1, VertexDataType.kVertexDataTypeDouble2,
      VertexDataType.kVertexDataTypeDouble3,
      IndexDataType.kIndexDataTypeInt16, IndexDataType.kIndexDataTypeInt32].Nodup := by
  refine ⟨⟨rfl, rfl⟩, ⟨rfl, rfl⟩, rfl, ?_⟩
  decide

/-- C12, as stated, fails: no two distinct four-character ASCII codes (bytes
in 1..127) have the same value under `details::i32(s, 0)`. -/
theorem codec_collision_refuted :
    ¬ ∃ s1 s2 : List Char, s1.length = 4 ∧ s2.length = 4 ∧ (∀ c ∈ s1, isTagChar c) ∧
      (∀ c ∈ s2, isTagChar c) ∧ s1 ≠ s2 ∧
      details.i32 (cstr s1) 0 = details.i32 (cstr s2) 0 := by
  rintro ⟨s1, s2, hlen1, hlen2, hs1, hs2, hne, h⟩
  exact hne (i32_tag_injective s1 s2 hlen1 hlen2 hs1 hs2 h)

/-- C12, amended. The codec is injective on four-character ASCII codes: two
distinct codes, each byte in 1..127, have distinct values under
`details::i32(s, 0)`. Equal members of an enumeration come from one code
written twice. -/
theorem codec_injective_on_codes (s1 s2 : List Char) (hlen1 : s1.length = 4)
    (hlen2 : s2.length = 4) (hs1 : ∀ c ∈ s1, isTagChar c) (hs2 : ∀ c ∈ s2, isTagChar c)
    (hne : s1 ≠ s2) : details.i32 (cstr s1) 0 ≠ details.i32 (cstr s2) 0 :=
  fun h => hne (i32_tag_injective s1 s2 hlen1 hlen2 hs1 hs2 h)

/-- C12, witness: "MESH" and "MATL" have distinct tags. -/
theorem codec_injective_on_codes_witness :
    "MESH".toList ≠ "MATL".toList ∧
      details.i32 (cstr "MESH".toList) 0 ≠ details.i32 (cstr "MATL".toList) 0 :=
  ⟨by decide,
    codec_injective_on_codes "MESH".toList "MATL".toList (by decide) (by decide) (by decide)
      (by decide) (by decide)⟩

/-- C18. The codec never overflows on ASCII input: for every string of at
most four bytes, each in 1..127, every intermediate value `v*256 + c` that
`details::i32` computes from 0 lies in `[0, 2^31)`, so the `int32_t` result is
the fold over unbounded integers and is not negative; for the empty string
the result is 0. -/
theorem i32_no_overflow (bytes : List Int) (hlen : bytes.length ≤ 4)
    (hb : ∀ c ∈ bytes, 1 ≤ c ∧ c ≤ 127) :
    (∀ x ∈ details.i32_values bytes 0, 0 ≤ x ∧ x < 2147483648) ∧
      details.i32 bytes 0 = foldTag bytes 0 ∧ 0 ≤ details.i32 bytes 0 ∧
      details.i32 [] 0 = 0 := by
  match bytes, hlen, hb with
  | [], _, _ => simp [details.i32, details.i32_values, foldTag]
  | [a], _, hb =>
    have ha := hb a (by simp)
    have na : a ≠ 0 := by omega
    have w1 : wrap32 a = a := wrap32_of_range a (by omega) (by omega)
    simp only [details.i32, details.i32_values, foldTag, List.foldl, ne_eq, na,
      not_false_eq_true, if_true, zero_mul, zero_add, w1, List.mem_singleton, forall_eq,
      true_and, and_true]
    omega
  | [a, b], _, hb =>
    have ha := hb a (by simp)
    have hb' := hb b (by simp)
    have na : a ≠ 0 := by omega
    have nb : b ≠ 0 := by omega
    have w1 : wrap32 a = a := wrap32_of_range a (by omega) (by omega)
    have w2 : wrap32 (a * 256 + b) = a * 256 + b := wrap32_of_range _ (by omega) (by omega)
    simp only [details.i32, details.i32_values, foldTag, List.foldl, ne_eq, na, nb,
      not_false_eq_true, if_true, zero_mul, zero_add, w1, w2, List.mem_cons,
      List.mem_singleton, forall_eq_or_imp, forall_eq, true_and, and_true, List.not_mem_nil, or_false,
      false_implies, implies_true]
    omega
  | [a, b, c], _, hb =>
    have ha := hb a (by simp)
    have hb' := hb b (by simp)
    have hc := hb c (by simp)
    have na : a ≠ 0 := by omega
    have nb : b ≠ 0 := by omega
    have nc : c ≠ 0 := by omega
    have w1 : wrap32 a = a := wrap32_of_range a (by omega) (by omega)
    have w2 : wrap32 (a * 256 + b) = a * 256 + b := wrap32_of_range _ (by omega) (by omega)
    have w3 : wrap32 ((a * 256 + b) * 256 + c) = (a * 256 + b) * 256 + c :=
      wrap32_of_range _ (by omega) (by omega)
    simp only [details.i32, details.i32_values, foldTag, List.foldl, ne_eq, na, nb, nc,
      not_false_eq_true, if_true, zero_mul, zero_add, w1, w2, w3, List.mem_cons,
      List.mem_singleton, forall_eq_or_imp, forall_eq, true_and, and_true, List.not_mem_nil, or_false,
      false_implies, implies_true]
    omega
  | [a, b, c, d], _, hb =>
    have ha := hb a (by simp)
    have hb' := hb b (by simp)
    have hc := hb c (by simp)
    have hd := hb d (by simp)
    have na : a ≠ 0 := by omega
    have nb : b ≠ 0 := by omega
    have nc : c ≠ 0 := by omega
    have nd : d ≠ 0 := by omega
    have w1 : wrap32 a = a := wrap32_of_range a (by omega) (by omega)
    have w2 : wrap32 (a * 256 + b) = a * 256 + b := wrap32_of_range _ (by omega) (by omega)
    have w3 : wrap32 ((a * 256 + b) * 256 + c) = (a * 256 + b) * 256 + c :=
      wrap32_of_range _ (by omega) (by omega)
    have w4 : wrap32 (((a * 256 + b) * 256 + c) * 256 + d)
        = ((a * 256 + b) * 256 + c) * 256 + d := wrap32_of_range _ (by omega) (by omega)
    simp only [details.i32, details.i32_values, foldTag, List.foldl, ne_eq, na, nb, nc, nd,
      not_false_eq_true, if_true, zero_mul, zero_add, w1, w2, w3, w4, List.mem_cons,
      List.mem_singleton, forall_eq_or_imp, forall_eq, true_and, and_true, List.not_mem_nil, or_false,
      false_implies, implies_true]
    omega
  | _ :: _ :: _ :: _ :: _ :: _, hlen, _ => simp at hlen

/-- C18, witness: the largest four-byte input, 127 four times, stays below
`2^31`. -/
theorem i32_no_overflow_witness :
    details.i32_values [127, 127, 127, 127] 0 = [127, 32639, 8355711, 2139062143] ∧
      (∀ x ∈ details.i32_values [127, 127, 127, 127] 0, 0 ≤ x ∧ x < 2147483648) ∧
      details.i32 [127, 127, 127, 127] 0 = foldTag [127, 127, 127, 127] 0 ∧
      0 ≤ details.i32 [127, 127, 127, 127] 0 ∧ details.i32 [] 0 = 0 :=
  ⟨by decide, i32_no_overflow [127, 127, 127, 127] (by decide) (by decide)⟩

/-! ## Constructors and appends: further claims -/

/-- C15. No stride validation in leaf containers: for every byte size `n` and
every data type `t`, `SceneObjectVertexArray(attr, data, n, t)` yields an
object, there is no failure path, and the object stores `n` and `t`
unchanged; so for float3 with `n = 13`, which is no multiple of 12. -/
theorem vertex_array_no_stride_check {σ G P : Type} (newGuid : σ → G × σ) (st : σ)
    (attr : String) (data : P) (n : Nat) (t : VertexDataType) (morph_index : Option Nat) :
    (∃ (obj : SceneObjectVertexArray G P) (st' : σ),
      SceneObjectVertexArray.ctor newGuid attr data n t morph_index st = (obj, st') ∧
        obj.m_szData = n ∧ obj.m_DataType = t) ∧
    (SceneObjectVertexArray.ctor newGuid attr data 13 VertexDataType.kVertexDataTypeFloat3
        morph_index st).1.m_szData = 13 ∧
    (SceneObjectVertexArray.ctor newGuid attr data 13 VertexDataType.kVertexDataTypeFloat3
        morph_index st).1.m_DataType = VertexDataType.kVertexDataTypeFloat3 :=
  ⟨⟨_, _, rfl, rfl, rfl⟩, rfl, rfl⟩

/-- C17. Appending mutates nothing but the target sequence: `AddVertxArray`
leaves the index arrays, the three flags, the identity, the kind and every
vertex array appended before unchanged; `AddIndexArray` likewise with the
roles of the two sequences exchanged; `AddMesh` leaves every mesh appended
before, with its arrays and flags, and the identity and kind of the geometry
unchanged. -/
theorem append_frame {G P : Type} (mesh : SceneObjectMesh G P)
    (v : SceneObjectVertexArray G P) (i : SceneObjectIndexArray G P)
    (geom : SceneObjectGeometry G P) (m : SceneObjectMesh G P) :
    ((mesh.AddVertxArray v).m_IndexArray = mesh.m_IndexArray ∧
      (mesh.AddVertxArray v).m_bVisible = mesh.m_bVisible ∧
      (mesh.AddVertxArray v).m_bShadow = mesh.m_bShadow ∧
      (mesh.AddVertxArray v).m_bMotionBlur = mesh.m_bMotionBlur ∧
      (mesh.AddVertxArray v).GetGuid = mesh.GetGuid ∧
      (mesh.AddVertxArray v).GetType = mesh.GetType ∧
      (mesh.AddVertxArray v).m_VertexArray.take mesh.m_VertexArray.length
        = mesh.m_VertexArray) ∧
    ((mesh.AddIndexArray i).m_VertexArray = mesh.m_VertexArray ∧
      (mesh.AddIndexArray i).m_bVisible = mesh.m_bVisible ∧
      (mesh.AddIndexArray i).m_bShadow = mesh.m_bShadow ∧
      (mesh.AddIndexArray i).m_bMotionBlur = mesh.m_bMotionBlur ∧
      (mesh.AddIndexArray i).GetGuid = mesh.GetGuid ∧
      (mesh.AddIndexArray i).GetType = mesh.GetType ∧
      (mesh.AddIndexArray i).m_IndexArray.take mesh.m_IndexArray.length
        = mesh.m_IndexArray) ∧
    ((geom.AddMesh m).GetGuid = geom.GetGuid ∧
      (geom.AddMesh m).GetType = geom.GetType ∧
      (geom.AddMesh m).m_Mesh.take geom.m_Mesh.length = geom.m_Mesh) := by
  refine ⟨⟨rfl, rfl, rfl, rfl, rfl, rfl, ?_⟩, ⟨rfl, rfl, rfl, rfl, rfl, rfl, ?_⟩, rfl, rfl, ?_⟩
  · simp [SceneObjectMesh.AddVertxArray]
  · simp [SceneObjectMesh.AddIndexArray]
  · simp [SceneObjectGeometry.AddMesh]

/-- C19. Each concrete class stamps its own kind: for every choice of
constructor arguments a new mesh has `GetType()` equal to the tag of "MESH",
a material "MATL", a geometry "GEOM", a camera "CAMR", an omni light and a
spot light "LGHT", a vertex array and an index array "VARR". -/
theorem class_stamps_kind {σ G P I F : Type} [Zero F] [One F] (newGuid : σ → G × σ) (st : σ)
    (visible shadow motion_blur : Option Bool) (base_color : Option (Color I F))
    (metallic roughness : Option (Parameter I F)) (normal : Option (Normal I F))
    (specular ao : Option (Parameter I F)) (attr : String) (data : P) (data_size : Nat)
    (data_type : VertexDataType) (morph_index : Option Nat) (material_index : Nat)
    (index_type : Option IndexDataType) (restart_index : Option Nat) :
    (SceneObjectMesh.ctor newGuid visible shadow motion_blur st :
        SceneObjectMesh G P × σ).1.GetType = details.i32 (cstr "MESH".toList) 0 ∧
    (SceneObjectMaterial.ctor newGuid base_color metallic roughness normal specular ao st :
        SceneObjectMaterial G I F × σ).1.GetType = details.i32 (cstr "MATL".toList) 0 ∧
    (SceneObjectGeometry.ctor newGuid st : SceneObjectGeometry G P × σ).1.GetType
      = details.i32 (cstr "GEOM".toList) 0 ∧
    (SceneObjectCamera.ctor newGuid st : SceneObjectCamera G F × σ).1.GetType
      = details.i32 (cstr "CAMR".toList) 0 ∧
    (SceneObjectOmniLight.ctor newGuid st : SceneObjectOmniLight G I F × σ).1.GetType
      = details.i32 (cstr "LGHT".toList) 0 ∧
    (SceneObjectSpotLight.ctor newGuid st : SceneObjectSpotLight G I F × σ).1.GetType
      = details.i32 (cstr "LGHT".toList) 0 ∧
    (SceneObjectVertexArray.ctor newGuid attr data data_size data_type morph_index st :
        SceneObjectVertexArray G P × σ).1.GetType = details.i32 (cstr "VARR".toList) 0 ∧
    (SceneObjectIndexArray.ctor newGuid material_index index_type restart_index st :
        SceneObjectIndexArray G P × σ).1.GetType = details.i32 (cstr "VARR".toList) 0 :=
  ⟨rfl, rfl, rfl, rfl, rfl, rfl, rfl, rfl⟩

/-! ## Lemmas on the life of an object -/

theorem Construction.run_classKind {σ G P I F : Type} [Zero F] [One F] (newGuid : σ → G × σ)
    (c : Construction P I F) (st : σ) :
    (c.run newGuid st).1.toBase.GetType = (c.run newGuid st).1.classKind := by
  cases c <;> rfl

theorem SceneObject.moveAssign_kind {G P I F : Type} {x y z : SceneObject G P I F}
    (h : x.moveAssign y = some z) :
    z.toBase.GetType = y.toBase.GetType ∧ z.classKind = x.classKind ∧
      y.classKind = x.classKind := by
  cases x <;> cases y <;> simp only [SceneObject.moveAssign, Option.some.injEq, reduceCtorEq] at h
    <;> subst h <;> exact ⟨rfl, rfl, rfl⟩

theorem SceneObject.moveAssign_guid {G P I F : Type} {x y z : SceneObject G P I F}
    (h : x.moveAssign y = some z) : z.toBase.GetGuid = y.toBase.GetGuid := by
  cases x <;> cases y <;> simp only [SceneObject.moveAssign, Option.some.injEq, reduceCtorEq] at h
    <;> subst h <;> rfl

theorem Lifetime.kind_invariant {σ G P I F : Type} [Zero F] [One F] {newGuid : σ → G × σ}
    {x0 x : SceneObject G P I F} (h : Lifetime newGuid x0 x) :
    x.toBase.GetType = x.classKind ∧ x.classKind = x0.classKind := by
  induction h with
  | constructed c st => exact ⟨Construction.run_classKind newGuid c st, rfl⟩
  | addMesh mesh _ ih => exact ih
  | addVertxArray array _ ih => exact ih
  | addIndexArray array _ ih => exact ih
  | moveAssign _ _ hz ihx ihy =>
    obtain ⟨h1, h2, h3⟩ := SceneObject.moveAssign_kind hz
    refine ⟨?_, h2.trans ihx.2⟩
    rw [h1, ihy.1, h3, h2]

theorem Lifetime.initial_kind {σ G P I F : Type} [Zero F] [One F] {newGuid : σ → G × σ}
    {x0 x : SceneObject G P I F} (h : Lifetime newGuid x0 x) :
    x0.toBase.GetType = x0.classKind := by
  induction h with
  | constructed c st => exact Construction.run_classKind newGuid c st
  | addMesh mesh _ ih => exact ih
  | addVertxArray array _ ih => exact ih
  | addIndexArray array _ ih => exact ih
  | moveAssign _ _ _ ihx _ => exact ihx

/-! ## Kind and identity over the life of an object: claims -/

/-- C13. Kind is fixed at construction: for every object of a concrete class,
after any number of the operations that apply to it (`AddMesh`,
`AddVertxArray`, `AddIndexArray`, move assignment from another object of the
same concrete class), `GetType()` is the value its constructor set. -/
theorem kind_fixed_at_construction {σ G P I F : Type} [Zero F] [One F] (newGuid : σ → G × σ)
    (x0 x : SceneObject G P I F) (h : Lifetime newGuid x0 x) :
    x.toBase.GetType = x0.toBase.GetType := by
  rw [(Lifetime.kind_invariant h).1, (Lifetime.kind_invariant h).2, Lifetime.initial_kind h]

/-- C13, witness: a mesh constructed against the counting service receives a
vertex array and is then move-assigned from a second mesh; its kind is still
the one its constructor set. -/
theorem kind_fixed_at_construction_witness :
    Lifetime counterGuid
      (SceneObject.Mesh (SceneObjectMesh.ctor counterGuid none none none 0).1 :
        SceneObject Nat Unit Unit Int)
      (SceneObject.Mesh
        (((SceneObjectMesh.ctor counterGuid none none none 0).1.AddVertxArray
            (SceneObjectVertexArray.ctor counterGuid "position" ()
              12 VertexDataType.kVertexDataTypeFloat3 none 1).1).moveAssign
          (SceneObjectMesh.ctor counterGuid none none none 2).1)) ∧
      (SceneObject.Mesh
        (((SceneObjectMesh.ctor counterGuid none none none 0).1.AddVertxArray
            (SceneObjectVertexArray.ctor counterGuid "position" ()
              12 VertexDataType.kVertexDataTypeFloat3 none 1).1).moveAssign
          (SceneObjectMesh.ctor counterGuid none none none 2).1) :
        SceneObject Nat Unit Unit Int).toBase.GetType
        = (SceneObject.Mesh (SceneObjectMesh.ctor counterGuid none none none 0).1 :
            SceneObject Nat Unit Unit Int).toBase.GetType :=
  have h : Lifetime counterGuid
      (SceneObject.Mesh (SceneObjectMesh.ctor counterGuid none none none 0).1 :
        SceneObject Nat Unit Unit Int)
      (SceneObject.Mesh
        (((SceneObjectMesh.ctor counterGuid none none none 0).1.AddVertxArray
            (SceneObjectVertexArray.ctor counterGuid "position" ()
              12 VertexDataType.kVertexDataTypeFloat3 none 1).1).moveAssign
          (SceneObjectMesh.ctor counterGuid none none none 2).1)) :=
    Lifetime.moveAssign
      (Lifetime.addVertxArray _
        (Lifetime.constructed (Construction.Mesh none none none) 0))
      (Lifetime.constructed (Construction.Mesh none none none) 2) rfl
  ⟨h, kind_fixed_at_construction counterGuid _ _ h⟩

/-- C14, as stated, fails: a mesh constructed with identity 0 reports
identity 1 after a mesh with identity 1 is move-assigned into it. -/
theorem identity_replaced_by_move_assign :
    (SceneObjectMesh.ctor counterGuid none none none 0 :
        SceneObjectMesh Nat Unit × Nat).1.GetGuid = 0 ∧
      ((SceneObjectMesh.ctor counterGuid none none none 0 :
          SceneObjectMesh Nat Unit × Nat).1.moveAssign
        (SceneObjectMesh.ctor counterGuid none none none 1).1).GetGuid = 1 ∧
      ((SceneObjectMesh.ctor counterGuid none none none 0 :
          SceneObjectMesh Nat Unit × Nat).1.moveAssign
        (SceneObjectMesh.ctor counterGuid none none none 1).1).GetGuid
        ≠ (SceneObjectMesh.ctor counterGuid none none none 0 :
            SceneObjectMesh Nat Unit × Nat).1.GetGuid := by
  decide

/-- C14, amended. While a constructed scene object `x` only receives
`AddMesh`, `AddVertxArray` and `AddIndexArray`, `x.GetGuid()` is the identity
it received at construction; move assignment of another scene object `y`
into `x` gives `x` the identity of `y`. -/
theorem identity_under_operations {σ G P I F : Type} [Zero F] [One F] (newGuid : σ → G × σ)
    (x0 x y z : SceneObject G P I F) (h : AppendLife newGuid x0 x)
    (hz : x.moveAssign y = some z) :
    x.toBase.GetGuid = x0.toBase.GetGuid ∧ z.toBase.GetGuid = y.toBase.GetGuid := by
  refine ⟨?_, SceneObject.moveAssign_guid hz⟩
  clear hz
  induction h with
  | constructed c st => rfl
  | addMesh mesh _ ih => exact ih
  | addVertxArray array _ ih => exact ih
  | addIndexArray array _ ih => exact ih

/-- C14, witness: the mesh with identity 0 of the counting service keeps it
when it receives a vertex array, and reports 2 once the mesh with identity 2
is move-assigned into it. -/
theorem identity_under_operations_witness :
    (SceneObject.Mesh ((SceneObjectMesh.ctor counterGuid none none none 0).1.AddVertxArray
        (SceneObjectVertexArray.ctor counterGuid "position" ()
          12 VertexDataType.kVertexDataTypeFloat3 none 1).1) :
      SceneObject Nat Unit Unit Int).toBase.GetGuid = 0 ∧
    (SceneObject.Mesh
        (((SceneObjectMesh.ctor counterGuid none none none 0).1.AddVertxArray
            (SceneObjectVertexArray.ctor counterGuid "position" ()
              12 VertexDataType.kVertexDataTypeFloat3 none 1).1).moveAssign
          (SceneObjectMesh.ctor counterGuid none none none 2).1) :
      SceneObject Nat Unit Unit Int).toBase.GetGuid = 2 :=
  identity_under_operations counterGuid
    (SceneObject.Mesh (SceneObjectMesh.ctor counterGuid none none none 0).1 :
      SceneObject Nat Unit Unit Int)
    (SceneObject.Mesh ((SceneObjectMesh.ctor counterGuid none none none 0).1.AddVertxArray
      (SceneObjectVertexArray.ctor counterGuid "position" ()
        12 VertexDataType.kVertexDataTypeFloat3 none 1).1))
    (SceneObject.Mesh (SceneObjectMesh.ctor counterGuid none none none 2).1)
    _
    (AppendLife.addVertxArray _ (AppendLife.constructed (Construction.Mesh none none none) 0))
    rfl

/-! ## Lemmas on the objects of a program -/

theorem SceneObject.moveCtor_eq {G P I F : Type} (x : SceneObject G P I F) :
    x.moveCtor = x := by
  cases x <;> rfl

theorem SceneObject.moveAssign_guids {G P I F : Type} {x y z : SceneObject G P I F}
    (h : x.moveAssign y = some z) : z.guids = y.guids := by
  cases x <;> cases y <;> simp only [SceneObject.moveAssign, Option.some.injEq, reduceCtorEq] at h
    <;> subst h <;> rfl

theorem Construction.run_guids {σ G P I F : Type} [Zero F] [One F] (newGuid : σ → G × σ)
    (c : Construction P I F) (st : σ) :
    (c.run newGuid st).1.guids = [(newGuid st).1] ∧ (c.run newGuid st).2 = (newGuid st).2 := by
  cases c <;> exact ⟨rfl, rfl⟩

theorem SceneObjectGeometry.guids_AddMesh {G P : Type} (geom : SceneObjectGeometry G P)
    (mesh : SceneObjectMesh G P) : (geom.AddMesh mesh).guids = geom.guids ++ mesh.guids := by
  simp [SceneObjectGeometry.guids, SceneObjectGeometry.AddMesh, SceneObjectMesh.moveCtor,
    BaseSceneObject.moveCtor, BaseSceneObject.GetGuid]

theorem SceneObjectMesh.guids_AddIndexArray {G P : Type} (mesh : SceneObjectMesh G P)
    (array : SceneObjectIndexArray G P) :
    (mesh.AddIndexArray array).guids = mesh.guids ++ [array.GetGuid] := by
  simp [SceneObjectMesh.guids, SceneObjectMesh.AddIndexArray, SceneObjectIndexArray.moveCtor,
    BaseSceneObject.moveCtor, BaseSceneObject.GetGuid]

theorem SceneObjectMesh.guids_AddVertxArray {G P : Type} (mesh : SceneObjectMesh G P)
    (array : SceneObjectVertexArray G P) :
    ((mesh.AddVertxArray array).guids).Perm (mesh.guids ++ [array.GetGuid]) := by
  simp only [SceneObjectMesh.guids, SceneObjectMesh.AddVertxArray, List.map_append, List.map_cons,
    List.map_nil, List.cons_append, List.append_assoc]
  refine List.Perm.cons _ (List.Perm.append_left _ ?_)
  exact (List.perm_append_singleton array.GetGuid _).symm

theorem svcAfter_succ {σ G : Type} (newGuid : σ → G × σ) (n : Nat) (st : σ) :
    svcAfter newGuid (n + 1) st = (newGuid (svcAfter newGuid n st)).2 := by
  induction n generalizing st with
  | zero => rfl
  | succ n ih => exact ih (newGuid st).2

theorem issued_succ {σ G : Type} (newGuid : σ → G × σ) (n : Nat) (st : σ) :
    issued newGuid (n + 1) st
      = issued newGuid n st ++ [(newGuid (svcAfter newGuid n st)).1] := by
  induction n generalizing st with
  | zero => rfl
  | succ n ih =>
    have e := ih (newGuid st).2
    simp only [issued, svcAfter, List.cons_append] at e ⊢
    rw [e]

theorem guids_carry_over {G : Type} {l l' pre S : List G} (hp : (pre ++ l').Perm l)
    (hn : l.Nodup) (hs : ∀ g ∈ l, g ∈ S) : l'.Nodup ∧ ∀ g ∈ l', g ∈ S := by
  have hn' : (pre ++ l').Nodup := hp.nodup_iff.mpr hn
  refine ⟨(List.nodup_append.mp hn').2.1, ?_⟩
  intro g hg
  exact hs g (hp.subset (List.mem_append_right pre hg))

theorem step_keeps_invariant {σ G P I F : Type} [Zero F] [One F] {newGuid : σ → G × σ} {st : σ}
    (hfresh : NeverRepeats newGuid st) {w w' : World σ G P I F} (hstep : Step newGuid w w')
    (n : Nat) (hsvc : w.svc = svcAfter newGuid n st) (hn : w.guids.Nodup)
    (hs : ∀ g ∈ w.guids, g ∈ issued newGuid n st) :
    ∃ n', w'.svc = svcAfter newGuid n' st ∧ w'.guids.Nodup ∧
      ∀ g ∈ w'.guids, g ∈ issued newGuid n' st := by
  cases hstep with
  | construct c =>
    obtain ⟨hg, hsv⟩ := Construction.run_guids newGuid c w.svc
    have hiss := issued_succ newGuid n st
    have hnd := hfresh (n + 1)
    rw [hiss, ← hsvc] at hnd
    refine ⟨n + 1, ?_, ?_, ?_⟩
    · show (c.run newGuid w.svc).2 = _
      rw [hsv, svcAfter_succ, hsvc]
    · simp only [World.guids, List.flatMap_cons, hg, List.singleton_append] at hn ⊢
      refine List.nodup_cons.mpr ⟨?_, hn⟩
      intro hmem
      have hin := hs _ hmem
      have hdis := (List.nodup_append.mp hnd).2.2
      exact hdis hin (List.mem_singleton_self _)
    · intro g hmem
      simp only [World.guids, List.flatMap_cons, hg, List.singleton_append,
        List.mem_cons] at hmem
      rw [hiss, ← hsvc]
      rcases hmem with rfl | hmem
      · exact List.mem_append_right _ (List.mem_singleton_self _)
      · exact List.mem_append_left _ (hs g hmem)
  | moveConstruct x rest hperm =>
    have hp : ([] ++ (x.moveCtor :: rest).flatMap SceneObject.guids).Perm w.guids := by
      rw [SceneObject.moveCtor_eq, List.nil_append]
      exact (List.Perm.flatMap_right SceneObject.guids hperm).symm
    obtain ⟨h1, h2⟩ := guids_carry_over hp hn hs
    exact ⟨n, hsvc, h1, h2⟩
  | moveAssign x y z rest hperm hz =>
    have hp : (x.guids ++ (z :: rest).flatMap SceneObject.guids).Perm w.guids := by
      have e := (List.Perm.flatMap_right SceneObject.guids hperm).symm
      simpa only [List.flatMap_cons, SceneObject.moveAssign_guids hz] using e
    obtain ⟨h1, h2⟩ := guids_carry_over hp hn hs
    exact ⟨n, hsvc, h1, h2⟩
  | addMesh geom mesh rest hperm =>
    have hp : ([] ++ (SceneObject.Geometry (geom.AddMesh mesh) :: rest).flatMap
        SceneObject.guids).Perm w.guids := by
      have e := (List.Perm.flatMap_right SceneObject.guids hperm).symm
      simpa only [List.flatMap_cons, SceneObject.guids, SceneObjectGeometry.guids_AddMesh,
        List.nil_append, List.append_assoc] using e
    obtain ⟨h1, h2⟩ := guids_carry_over hp hn hs
    exact ⟨n, hsvc, h1, h2⟩
  | addVertxArray mesh array rest hperm =>
    have hp : ([] ++ (SceneObject.Mesh (mesh.AddVertxArray array) :: rest).flatMap
        SceneObject.guids).Perm w.guids := by
      have e := (List.Perm.flatMap_right SceneObject.guids hperm).symm
      simp only [List.flatMap_cons, SceneObject.guids, SceneObject.toBase] at e
      simp only [List.flatMap_cons, SceneObject.guids, List.nil_append]
      refine List.Perm.trans ?_ e
      refine List.Perm.trans
        (List.Perm.append_right _ (SceneObjectMesh.guids_AddVertxArray mesh array)) ?_
      rw [List.append_assoc]
    obtain ⟨h1, h2⟩ := guids_carry_over hp hn hs
    exact ⟨n, hsvc, h1, h2⟩
  | addIndexArray mesh array rest hperm =>
    have hp : ([] ++ (SceneObject.Mesh (mesh.AddIndexArray array) :: rest).flatMap
        SceneObject.guids).Perm w.guids := by
      have e := (List.Perm.flatMap_right SceneObject.guids hperm).symm
      simp only [List.flatMap_cons, SceneObject.guids, SceneObject.toBase] at e
      simp only [List.flatMap_cons, SceneObject.guids, List.nil_append,
        SceneObjectMesh.guids_AddIndexArray]
      refine List.Perm.trans ?_ e
      rw [List.append_assoc]
    obtain ⟨h1, h2⟩ := guids_carry_over hp hn hs
    exact ⟨n, hsvc, h1, h2⟩
  | destroy x rest hperm =>
    have hp : (x.guids ++ rest.flatMap SceneObject.guids).Perm w.guids := by
      have e := (List.Perm.flatMap_right SceneObject.guids hperm).symm
      simpa only [List.flatMap_cons] using e
    obtain ⟨h1, h2⟩ := guids_carry_over hp hn hs
    exact ⟨n, hsvc, h1, h2⟩

theorem reachable_invariant {σ G P I F : Type} [Zero F] [One F] {newGuid : σ → G × σ} {st : σ}
    (hfresh : NeverRepeats newGuid st) {w : World σ G P I F} (hw : Reachable newGuid st w) :
    ∃ n, w.svc = svcAfter newGuid n st ∧ w.guids.Nodup ∧
      ∀ g ∈ w.guids, g ∈ issued newGuid n st := by
  induction hw with
  | start => exact ⟨0, rfl, List.nodup_nil, fun g hg => by simp [World.guids] at hg⟩
  | step _ hstep ih =>
    obtain ⟨n, h1, h2, h3⟩ := ih
    exact step_keeps_invariant hfresh hstep n h1 h2 h3

/-! ## The objects of a program: claims -/

/-- C16. Scene objects are never duplicated: copy construction and copy
assignment are unavailable, so in every state that a program reaches by
constructing, moving, appending and destroying scene objects, with an
identity service that never returns the same identifier twice, no two live
objects, owned objects included, share one identity. -/
theorem no_shared_identity {σ G P I F : Type} [Zero F] [One F] (newGuid : σ → G × σ) (st : σ)
    (hfresh : NeverRepeats newGuid st) (w : World σ G P I F)
    (hw : Reachable newGuid st w) : w.guids.Nodup := by
  obtain ⟨_, _, h, _⟩ := reachable_invariant hfresh hw
  exact h

/-- C16, witness: a geometry and a mesh are constructed against the counting
service and the mesh is appended to the geometry; the two identities 0 and 1
of the resulting state are distinct. -/
theorem no_shared_identity_witness :
    NeverRepeats counterGuid 0 ∧
      Reachable counterGuid 0
        ({ live := [SceneObject.Geometry ((SceneObjectGeometry.ctor counterGuid 0).1.AddMesh
                      (SceneObjectMesh.ctor counterGuid none none none 1).1)]
           svc := 2 } : World Nat Nat Unit Unit Int) ∧
      ({ live := [SceneObject.Geometry ((SceneObjectGeometry.ctor counterGuid 0).1.AddMesh
                    (SceneObjectMesh.ctor counterGuid none none none 1).1)]
         svc := 2 } : World Nat Nat Unit Unit Int).guids = [0, 1] ∧
      ({ live := [SceneObject.Geometry ((SceneObjectGeometry.ctor counterGuid 0).1.AddMesh
                    (SceneObjectMesh.ctor counterGuid none none none 1).1)]
         svc := 2 } : World Nat Nat Unit Unit Int).guids.Nodup :=
  have hw : Reachable counterGuid 0
      ({ live := [SceneObject.Geometry ((SceneObjectGeometry.ctor counterGuid 0).1.AddMesh
                    (SceneObjectMesh.ctor counterGuid none none none 1).1)]
         svc := 2 } : World Nat Nat Unit Unit Int) :=
    Reachable.step
      (Reachable.step
        (Reachable.step Reachable.start (Step.construct _ Construction.Geometry))
        (Step.construct _ (Construction.Mesh none none none)))
      (Step.addMesh _ (SceneObjectGeometry.ctor counterGuid 0).1
        (SceneObjectMesh.ctor counterGuid none none none 1).1 [] (List.Perm.swap _ _ _))
  ⟨counterGuid_neverRepeats 0, hw, rfl,
    no_shared_identity counterGuid 0 (counterGuid_neverRepeats 0) _ hw⟩

end My
